import Mathlib

/-!
# Foster platform layer: lifecycle and input-event normalisation

A shallow embedding of `src/Platform/src/foster_platform.c`.

* The process-wide `fstate` becomes an explicit `FosterState` value that every
  operation receives and returns.
* Everything the C code asks of SDL or of the rendering backend is answered by
  a `Host` record, so every theorem holds for all possible host behaviour.
* Each operation also returns the list of `Effect`s it performed, in program
  order: callbacks of the description, backend hooks, and SDL calls that act on
  the host or store through the caller's pointers.  Read-only SDL getters
  (version, error text, device properties, instance ids,
  `SDL_IsGameController`) are answered by `Host` and leave no entry.
* A call through a function pointer that the C code does not test against
  `NULL` yields `none` (the program faults) when the pointer is `NULL`.
* The pending host events that `SDL_PollEvent` hands out are an explicit list.
* The image codec passthrough (`FosterImageLoad`, `FosterImageFree`,
  `FosterImageWrite`) and the SDL log bridge `FosterLog_SDL` are not embedded.
-/

namespace Foster

/-! ## Types declared in headers that are not part of the sources -/

/-- Modelled from the spec: the compile-time constants of `foster_platform.h`
(capacity of the two slot tables, attachment limit, the three flag bits).  The
header is absent, so the constants are parameters of the whole development and
every theorem holds for all their values. -/
structure FosterHeader where
  FOSTER_MAX_CONTROLLERS : Nat
  FOSTER_MAX_TARGET_ATTACHMENTS : Int
  FOSTER_FLAG_FULLSCREEN : Nat
  FOSTER_FLAG_RESIZABLE : Nat
  FOSTER_FLAG_VSYNC : Nat
  deriving DecidableEq, Repr

/-- Nullable C pointer to a host or backend object: `none` is `NULL`. -/
abbrev Ptr := Option Nat

/-- Modelled from the spec: the renderer kinds of `foster_platform.h` named in
this file, and `other` for any further enumerator. -/
inductive FosterRenderers where
  | FOSTER_RENDERER_NONE
  | FOSTER_RENDERER_OPENGL
  | other (raw : Nat)
  deriving DecidableEq, Repr

/-- Modelled from the spec: the logging levels of `foster_platform.h` named in
this file, and `other` for any further enumerator. -/
inductive FosterLogging where
  | FOSTER_LOGGING_NONE
  | FOSTER_LOGGING_ALL
  | other (raw : Nat)
  deriving DecidableEq, Repr

/-- Window creation flags of SDL used by this file, kept symbolic. -/
inductive SDL_WindowFlags where
  | SDL_WINDOW_ALLOW_HIGHDPI
  | SDL_WINDOW_HIDDEN
  deriving DecidableEq, Repr

/-- Subsystem flags of `SDL_Init` used by this file, kept symbolic. -/
inductive SDL_InitFlags where
  | SDL_INIT_VIDEO
  | SDL_INIT_TIMER
  | SDL_INIT_EVENTS
  | SDL_INIT_JOYSTICK
  | SDL_INIT_GAMECONTROLLER
  deriving DecidableEq, Repr

/-- Modelled from the spec: `FosterDesc` of `foster_platform.h`, with the fields
this file reads.  A callback field is `true` when the function pointer is not
`NULL`. -/
structure FosterDesc where
  windowTitle : Option String
  applicationName : Option String
  width : Int
  height : Int
  renderer : FosterRenderers
  flags : Nat
  logging : FosterLogging
  onLogInfo : Bool
  onLogWarn : Bool
  onLogError : Bool
  onExitRequest : Bool
  onMouseButton : Bool
  onMouseWheel : Bool
  onKey : Bool
  onText : Bool
  onControllerConnect : Bool
  onControllerDisconnect : Bool
  onControllerButton : Bool
  onControllerAxis : Bool
  deriving DecidableEq, Repr

/-- Modelled from the spec: `FosterDevice` of `foster_internal.h`, the backend
capability record.  A hook field is `true` when the function pointer is not
`NULL`; what a hook returns is answered by `Host`. -/
structure FosterDevice where
  renderer : FosterRenderers
  prepare : Bool
  initializeHook : Bool
  shutdown : Bool
  frameBegin : Bool
  frameEnd : Bool
  textureCreate : Bool
  textureSetData : Bool
  textureGetData : Bool
  textureDestroy : Bool
  targetCreate : Bool
  targetGetAttachment : Bool
  targetDestroy : Bool
  shaderCreate : Bool
  shaderGetUniforms : Bool
  shaderSetUniform : Bool
  shaderSetTexture : Bool
  shaderSetSampler : Bool
  shaderDestroy : Bool
  meshCreate : Bool
  meshSetVertexFormat : Bool
  meshSetVertexData : Bool
  meshSetIndexFormat : Bool
  meshSetIndexData : Bool
  meshDestroy : Bool
  draw : Bool
  clear : Bool
  deriving DecidableEq, Repr

/-- Modelled from the spec: `FosterState` of `foster_internal.h`, the runtime
singleton `fstate`.  The two slot tables have exactly
`FOSTER_MAX_CONTROLLERS` entries, each `NULL` or a device handle. -/
structure FosterState (H : FosterHeader) where
  running : Bool
  desc : FosterDesc
  flags : Nat
  window : Ptr
  windowCreateFlags : List SDL_WindowFlags
  device : FosterDevice
  clipboardText : Option String
  userPath : Option String
  joysticks : Fin H.FOSTER_MAX_CONTROLLERS → Ptr
  gamepads : Fin H.FOSTER_MAX_CONTROLLERS → Ptr

/-- Modelled from the spec: the mouse buttons of `foster_platform.h`. -/
inductive FosterMouse where
  | FOSTER_MOUSE_NONE
  | FOSTER_MOUSE_LEFT
  | FOSTER_MOUSE_RIGHT
  | FOSTER_MOUSE_MIDDLE
  deriving DecidableEq, Repr

/-- Modelled from the spec: the controller axes of `foster_platform.h`, an
enumeration whose members are pairwise different. -/
inductive FosterAxis where
  | FOSTER_AXIS_NONE
  | FOSTER_AXIS_LEFT_X
  | FOSTER_AXIS_LEFT_Y
  | FOSTER_AXIS_RIGHT_X
  | FOSTER_AXIS_RIGHT_Y
  | FOSTER_AXIS_LEFT_TRIGGER
  | FOSTER_AXIS_RIGHT_TRIGGER
  deriving DecidableEq, Repr

/-- Modelled from the spec: the controller buttons of `foster_platform.h`. -/
inductive FosterButtons where
  | FOSTER_BUTTON_NONE
  | FOSTER_BUTTON_A
  | FOSTER_BUTTON_B
  | FOSTER_BUTTON_X
  | FOSTER_BUTTON_Y
  | FOSTER_BUTTON_BACK
  | FOSTER_BUTTON_SELECT
  | FOSTER_BUTTON_START
  | FOSTER_BUTTON_LEFTSTICK
  | FOSTER_BUTTON_RIGHTSTICK
  | FOSTER_BUTTON_LEFTSHOULDER
  | FOSTER_BUTTON_RIGHTSHOULDER
  | FOSTER_BUTTON_UP
  | FOSTER_BUTTON_DOWN
  | FOSTER_BUTTON_LEFT
  | FOSTER_BUTTON_RIGHT
  deriving DecidableEq, Repr

/-- Host scancodes (`SDL_Scancode`): one constructor for every case label of
`FosterGetKeyFromSDL`, and `other` for every scancode value that is none of
them.  Case labels of one C `switch` are pairwise different values. -/
inductive SDL_Scancode where
  | SDL_SCANCODE_UNKNOWN
  | SDL_SCANCODE_A
  | SDL_SCANCODE_B
  | SDL_SCANCODE_C
  | SDL_SCANCODE_D
  | SDL_SCANCODE_E
  | SDL_SCANCODE_F
  | SDL_SCANCODE_G
  | SDL_SCANCODE_H
  | SDL_SCANCODE_I
  | SDL_SCANCODE_J
  | SDL_SCANCODE_K
  | SDL_SCANCODE_L
  | SDL_SCANCODE_M
  | SDL_SCANCODE_N
  | SDL_SCANCODE_O
  | SDL_SCANCODE_P
  | SDL_SCANCODE_Q
  | SDL_SCANCODE_R
  | SDL_SCANCODE_S
  | SDL_SCANCODE_T
  | SDL_SCANCODE_U
  | SDL_SCANCODE_V
  | SDL_SCANCODE_W
  | SDL_SCANCODE_X
  | SDL_SCANCODE_Y
  | SDL_SCANCODE_Z
  | SDL_SCANCODE_1
  | SDL_SCANCODE_2
  | SDL_SCANCODE_3
  | SDL_SCANCODE_4
  | SDL_SCANCODE_5
  | SDL_SCANCODE_6
  | SDL_SCANCODE_7
  | SDL_SCANCODE_8
  | SDL_SCANCODE_9
  | SDL_SCANCODE_0
  | SDL_SCANCODE_RETURN
  | SDL_SCANCODE_ESCAPE
  | SDL_SCANCODE_BACKSPACE
  | SDL_SCANCODE_TAB
  | SDL_SCANCODE_SPACE
  | SDL_SCANCODE_MINUS
  | SDL_SCANCODE_EQUALS
  | SDL_SCANCODE_LEFTBRACKET
  | SDL_SCANCODE_RIGHTBRACKET
  | SDL_SCANCODE_BACKSLASH
  | SDL_SCANCODE_SEMICOLON
  | SDL_SCANCODE_APOSTROPHE
  | SDL_SCANCODE_GRAVE
  | SDL_SCANCODE_COMMA
  | SDL_SCANCODE_PERIOD
  | SDL_SCANCODE_SLASH
  | SDL_SCANCODE_CAPSLOCK
  | SDL_SCANCODE_F1
  | SDL_SCANCODE_F2
  | SDL_SCANCODE_F3
  | SDL_SCANCODE_F4
  | SDL_SCANCODE_F5
  | SDL_SCANCODE_F6
  | SDL_SCANCODE_F7
  | SDL_SCANCODE_F8
  | SDL_SCANCODE_F9
  | SDL_SCANCODE_F10
  | SDL_SCANCODE_F11
  | SDL_SCANCODE_F12
  | SDL_SCANCODE_PRINTSCREEN
  | SDL_SCANCODE_SCROLLLOCK
  | SDL_SCANCODE_PAUSE
  | SDL_SCANCODE_INSERT
  | SDL_SCANCODE_HOME
  | SDL_SCANCODE_PAGEUP
  | SDL_SCANCODE_DELETE
  | SDL_SCANCODE_END
  | SDL_SCANCODE_PAGEDOWN
  | SDL_SCANCODE_RIGHT
  | SDL_SCANCODE_LEFT
  | SDL_SCANCODE_DOWN
  | SDL_SCANCODE_UP
  | SDL_SCANCODE_KP_DIVIDE
  | SDL_SCANCODE_KP_MULTIPLY
  | SDL_SCANCODE_KP_MINUS
  | SDL_SCANCODE_KP_PLUS
  | SDL_SCANCODE_KP_ENTER
  | SDL_SCANCODE_KP_1
  | SDL_SCANCODE_KP_2
  | SDL_SCANCODE_KP_3
  | SDL_SCANCODE_KP_4
  | SDL_SCANCODE_KP_5
  | SDL_SCANCODE_KP_6
  | SDL_SCANCODE_KP_7
  | SDL_SCANCODE_KP_8
  | SDL_SCANCODE_KP_9
  | SDL_SCANCODE_KP_0
  | SDL_SCANCODE_APPLICATION
  | SDL_SCANCODE_KP_EQUALS
  | SDL_SCANCODE_F13
  | SDL_SCANCODE_F14
  | SDL_SCANCODE_F15
  | SDL_SCANCODE_F16
  | SDL_SCANCODE_F17
  | SDL_SCANCODE_F18
  | SDL_SCANCODE_F19
  | SDL_SCANCODE_F20
  | SDL_SCANCODE_F21
  | SDL_SCANCODE_F22
  | SDL_SCANCODE_F23
  | SDL_SCANCODE_F24
  | SDL_SCANCODE_EXECUTE
  | SDL_SCANCODE_HELP
  | SDL_SCANCODE_MENU
  | SDL_SCANCODE_SELECT
  | SDL_SCANCODE_STOP
  | SDL_SCANCODE_UNDO
  | SDL_SCANCODE_CUT
  | SDL_SCANCODE_COPY
  | SDL_SCANCODE_PASTE
  | SDL_SCANCODE_FIND
  | SDL_SCANCODE_MUTE
  | SDL_SCANCODE_VOLUMEUP
  | SDL_SCANCODE_VOLUMEDOWN
  | SDL_SCANCODE_KP_COMMA
  | SDL_SCANCODE_ALTERASE
  | SDL_SCANCODE_SYSREQ
  | SDL_SCANCODE_CANCEL
  | SDL_SCANCODE_CLEAR
  | SDL_SCANCODE_PRIOR
  | SDL_SCANCODE_RETURN2
  | SDL_SCANCODE_SEPARATOR
  | SDL_SCANCODE_OUT
  | SDL_SCANCODE_OPER
  | SDL_SCANCODE_CLEARAGAIN
  | SDL_SCANCODE_KP_00
  | SDL_SCANCODE_KP_000
  | SDL_SCANCODE_KP_LEFTPAREN
  | SDL_SCANCODE_KP_RIGHTPAREN
  | SDL_SCANCODE_KP_LEFTBRACE
  | SDL_SCANCODE_KP_RIGHTBRACE
  | SDL_SCANCODE_KP_TAB
  | SDL_SCANCODE_KP_BACKSPACE
  | SDL_SCANCODE_KP_A
  | SDL_SCANCODE_KP_B
  | SDL_SCANCODE_KP_C
  | SDL_SCANCODE_KP_D
  | SDL_SCANCODE_KP_E
  | SDL_SCANCODE_KP_F
  | SDL_SCANCODE_KP_XOR
  | SDL_SCANCODE_KP_POWER
  | SDL_SCANCODE_KP_PERCENT
  | SDL_SCANCODE_KP_LESS
  | SDL_SCANCODE_KP_GREATER
  | SDL_SCANCODE_KP_AMPERSAND
  | SDL_SCANCODE_KP_COLON
  | SDL_SCANCODE_KP_HASH
  | SDL_SCANCODE_KP_SPACE
  | SDL_SCANCODE_KP_CLEAR
  | SDL_SCANCODE_LCTRL
  | SDL_SCANCODE_LSHIFT
  | SDL_SCANCODE_LALT
  | SDL_SCANCODE_LGUI
  | SDL_SCANCODE_RCTRL
  | SDL_SCANCODE_RSHIFT
  | SDL_SCANCODE_RALT
  | SDL_SCANCODE_RGUI
  | other (raw : Nat)

/-- Modelled from the spec: the key vocabulary `FosterKeys` of
`foster_platform.h`, an enumeration whose members are pairwise different; the
members listed are the ones this file returns. -/
inductive FosterKeys where
  | FOSTER_KEY_UNKNOWN
  | FOSTER_KEY_A
  | FOSTER_KEY_B
  | FOSTER_KEY_C
  | FOSTER_KEY_D
  | FOSTER_KEY_E
  | FOSTER_KEY_F
  | FOSTER_KEY_G
  | FOSTER_KEY_H
  | FOSTER_KEY_I
  | FOSTER_KEY_J
  | FOSTER_KEY_K
  | FOSTER_KEY_L
  | FOSTER_KEY_M
  | FOSTER_KEY_N
  | FOSTER_KEY_O
  | FOSTER_KEY_P
  | FOSTER_KEY_Q
  | FOSTER_KEY_R
  | FOSTER_KEY_S
  | FOSTER_KEY_T
  | FOSTER_KEY_U
  | FOSTER_KEY_V
  | FOSTER_KEY_W
  | FOSTER_KEY_X
  | FOSTER_KEY_Y
  | FOSTER_KEY_Z
  | FOSTER_KEY_D1
  | FOSTER_KEY_D2
  | FOSTER_KEY_D3
  | FOSTER_KEY_D4
  | FOSTER_KEY_D5
  | FOSTER_KEY_D6
  | FOSTER_KEY_D7
  | FOSTER_KEY_D8
  | FOSTER_KEY_D9
  | FOSTER_KEY_D0
  | FOSTER_KEY_ENTER
  | FOSTER_KEY_ESCAPE
  | FOSTER_KEY_BACKSPACE
  | FOSTER_KEY_TAB
  | FOSTER_KEY_SPACE
  | FOSTER_KEY_MINUS
  | FOSTER_KEY_EQUALS
  | FOSTER_KEY_LEFTBRACKET
  | FOSTER_KEY_RIGHTBRACKET
  | FOSTER_KEY_BACKSLASH
  | FOSTER_KEY_SEMICOLON
  | FOSTER_KEY_APOSTROPHE
  | FOSTER_KEY_TILDE
  | FOSTER_KEY_COMMA
  | FOSTER_KEY_PERIOD
  | FOSTER_KEY_SLASH
  | FOSTER_KEY_CAPSLOCK
  | FOSTER_KEY_F1
  | FOSTER_KEY_F2
  | FOSTER_KEY_F3
  | FOSTER_KEY_F4
  | FOSTER_KEY_F5
  | FOSTER_KEY_F6
  | FOSTER_KEY_F7
  | FOSTER_KEY_F8
  | FOSTER_KEY_F9
  | FOSTER_KEY_F10
  | FOSTER_KEY_F11
  | FOSTER_KEY_F12
  | FOSTER_KEY_PRINTSCREEN
  | FOSTER_KEY_SCROLLLOCK
  | FOSTER_KEY_PAUSE
  | FOSTER_KEY_INSERT
  | FOSTER_KEY_HOME
  | FOSTER_KEY_PAGEUP
  | FOSTER_KEY_DELETE
  | FOSTER_KEY_END
  | FOSTER_KEY_PAGEDOWN
  | FOSTER_KEY_RIGHT
  | FOSTER_KEY_LEFT
  | FOSTER_KEY_DOWN
  | FOSTER_KEY_UP
  | FOSTER_KEY_KEYPAD_DIVIDE
  | FOSTER_KEY_KEYPAD_MULTIPLY
  | FOSTER_KEY_KEYPAD_MINUS
  | FOSTER_KEY_KEYPAD_PLUS
  | FOSTER_KEY_KEYPAD_ENTER
  | FOSTER_KEY_KEYPAD_1
  | FOSTER_KEY_KEYPAD_2
  | FOSTER_KEY_KEYPAD_3
  | FOSTER_KEY_KEYPAD_4
  | FOSTER_KEY_KEYPAD_5
  | FOSTER_KEY_KEYPAD_6
  | FOSTER_KEY_KEYPAD_7
  | FOSTER_KEY_KEYPAD_8
  | FOSTER_KEY_KEYPAD_9
  | FOSTER_KEY_KEYPAD_0
  | FOSTER_KEY_APPLICATION
  | FOSTER_KEY_KEYPAD_EQUALS
  | FOSTER_KEY_F13
  | FOSTER_KEY_F14
  | FOSTER_KEY_F15
  | FOSTER_KEY_F16
  | FOSTER_KEY_F17
  | FOSTER_KEY_F18
  | FOSTER_KEY_F19
  | FOSTER_KEY_F20
  | FOSTER_KEY_F21
  | FOSTER_KEY_F22
  | FOSTER_KEY_F23
  | FOSTER_KEY_F24
  | FOSTER_KEY_EXECUTE
  | FOSTER_KEY_HELP
  | FOSTER_KEY_MENU
  | FOSTER_KEY_SELECT
  | FOSTER_KEY_STOP
  | FOSTER_KEY_UNDO
  | FOSTER_KEY_CUT
  | FOSTER_KEY_COPY
  | FOSTER_KEY_PASTE
  | FOSTER_KEY_FIND
  | FOSTER_KEY_MUTE
  | FOSTER_KEY_VOLUMEUP
  | FOSTER_KEY_VOLUMEDOWN
  | FOSTER_KEY_KEYPAD_COMMA
  | FOSTER_KEY_ALTERASE
  | FOSTER_KEY_SYSREQ
  | FOSTER_KEY_CANCEL
  | FOSTER_KEY_CLEAR
  | FOSTER_KEY_PRIOR
  | FOSTER_KEY_ENTER2
  | FOSTER_KEY_SEPARATOR
  | FOSTER_KEY_OUT
  | FOSTER_KEY_OPER
  | FOSTER_KEY_CLEARAGAIN
  | FOSTER_KEY_KEYPAD_00
  | FOSTER_KEY_KEYPAD_000
  | FOSTER_KEY_KEYPAD_LEFT_PAREN
  | FOSTER_KEY_KEYPAD_RIGHT_PAREN
  | FOSTER_KEY_KEYPAD_LEFT_BRACE
  | FOSTER_KEY_KEYPAD_RIGHT_BRACE
  | FOSTER_KEY_KEYPAD_TAB
  | FOSTER_KEY_KEYPAD_BACKSPACE
  | FOSTER_KEY_KEYPAD_A
  | FOSTER_KEY_KEYPAD_B
  | FOSTER_KEY_KEYPAD_C
  | FOSTER_KEY_KEYPAD_D
  | FOSTER_KEY_KEYPAD_E
  | FOSTER_KEY_KEYPAD_F
  | FOSTER_KEY_KEYPAD_XOR
  | FOSTER_KEY_KEYPAD_POWER
  | FOSTER_KEY_KEYPAD_PERCENT
  | FOSTER_KEY_KEYPAD_LESS
  | FOSTER_KEY_KEYPAD_GREATER
  | FOSTER_KEY_KEYPAD_AMPERSAND
  | FOSTER_KEY_KEYPAD_COLON
  | FOSTER_KEY_KEYPAD_HASH
  | FOSTER_KEY_KEYPAD_SPACE
  | FOSTER_KEY_KEYPAD_CLEAR
  | FOSTER_KEY_LEFT_CONTROL
  | FOSTER_KEY_LEFT_SHIFT
  | FOSTER_KEY_LEFT_ALT
  | FOSTER_KEY_LEFT_OS
  | FOSTER_KEY_RIGHT_CONTROL
  | FOSTER_KEY_RIGHT_SHIFT
  | FOSTER_KEY_RIGHT_ALT
  | FOSTER_KEY_RIGHT_OS
  deriving DecidableEq, Repr

/-! ## Effects, host answers, outcomes -/

/-- An argument of a `printf`-style log call. -/
inductive LogArg where
  | str (s : String)
  | int (i : Int)
  deriving DecidableEq, Repr

/-- The button argument of `onControllerButton`: the raw host button of a
joystick event, or the translated button of a gamepad event. -/
inductive ButtonArg where
  | raw (button : Nat)
  | button (b : FosterButtons)
  deriving DecidableEq, Repr

/-- The axis argument of `onControllerAxis`: the raw host axis of a joystick
event, or the translated axis of a gamepad event. -/
inductive AxisArg where
  | raw (axis : Nat)
  | axis (a : FosterAxis)
  deriving DecidableEq, Repr

/-- One thing an operation did, with its arguments in source order.  A log
callback is recorded with the format string and arguments its message is
printed from.  `SDL_CreateWindow` omits the two `SDL_WINDOWPOS_CENTERED`
arguments; `SDL_SetWindowFullscreen` records whether
`SDL_WINDOW_FULLSCREEN_DESKTOP` (rather than `0`) was passed; `SDL_SetHint`
records the name of the hint macro. -/
inductive Effect where
  | onLogInfo (fmt : String) (args : List LogArg)
  | onLogWarn (fmt : String) (args : List LogArg)
  | onLogError (fmt : String) (args : List LogArg)
  | onExitRequest
  | onMouseButton (btn : FosterMouse) (pressed : Bool)
  | onMouseWheel (x y : Int)
  | onKey (key : FosterKeys) (pressed : Bool)
  | onText (text : String)
  | onControllerConnect (index : Int) (name : Option String) (arg3 arg4 arg5 : Int)
      (vendor product version : Nat)
  | onControllerDisconnect (index : Int)
  | onControllerButton (index : Int) (button : ButtonArg) (pressed : Bool)
  | onControllerAxis (index : Int) (axis : AxisArg) (value : ℚ)
  | SDL_LogSetOutputFunction
  | SDL_SetHint (name value : String)
  | SDL_Init (flags : List SDL_InitFlags)
  | SDL_CreateWindow (title : String) (w h : Int) (flags : List SDL_WindowFlags)
  | SDL_DestroyWindow (window : Ptr)
  | SDL_ShowWindow (window : Ptr)
  | SDL_SetWindowTitle (window : Ptr) (title : Option String)
  | SDL_SetWindowSize (window : Ptr) (w h : Int)
  | SDL_GetWindowSize (window : Ptr)
  | SDL_GetWindowSizeInPixels (window : Ptr)
  | SDL_SetWindowFullscreen (window : Ptr) (desktop : Bool)
  | SDL_SetWindowResizable (window : Ptr) (resizable : Bool)
  | SDL_GL_SetSwapInterval (interval : Int)
  | SDL_GetPrefPath (org app : Option String)
  | SDL_SetClipboardText (text : Option String)
  | SDL_GetClipboardText
  | SDL_free (mem : Option String)
  | SDL_JoystickOpen (index : Int)
  | SDL_JoystickClose (joystick : Ptr)
  | SDL_GameControllerOpen (index : Int)
  | SDL_GameControllerClose (gamepad : Ptr)
  | FosterGetDevice (renderer : FosterRenderers)
  | device_prepare
  | device_initializeHook
  | device_shutdown
  | device_frameBegin
  | device_frameEnd
  | device_textureCreate (width height format : Int)
  | device_textureSetData (texture data : Ptr) (length : Int)
  | device_textureGetData (texture data : Ptr) (length : Int)
  | device_textureDestroy (texture : Ptr)
  | device_targetCreate (width height : Int) (attachments : Ptr) (attachmentCount : Int)
  | device_targetGetAttachment (target : Ptr) (index : Int)
  | device_targetDestroy (target : Ptr)
  | device_shaderCreate (data : Ptr)
  | device_shaderGetUniforms (shader output count : Ptr) (max : Int)
  | device_shaderSetUniform (shader : Ptr) (index : Int) (values : Ptr)
  | device_shaderSetTexture (shader : Ptr) (index : Int) (values : Ptr)
  | device_shaderSetSampler (shader : Ptr) (index : Int) (values : Ptr)
  | device_shaderDestroy (shader : Ptr)
  | device_meshCreate
  | device_meshSetVertexFormat (mesh format : Ptr)
  | device_meshSetVertexData (mesh data : Ptr) (dataSize : Int)
  | device_meshSetIndexFormat (mesh : Ptr) (format : Int)
  | device_meshSetIndexData (mesh data : Ptr) (dataSize : Int)
  | device_meshDestroy (mesh : Ptr)
  | device_draw (command : Ptr)
  | device_clear (clear : Ptr)

/-- The answers of the outside world: what each SDL function and each backend
hook returns for given arguments.  `FosterGetDevice` receives the device record
it is asked to fill and returns its verdict with the record as it leaves it;
`device_initializeHook` is what the backend's initialize hook returns. -/
structure Host where
  SDL_GetVersion : Int × Int × Int
  SDL_GetError : String
  SDL_Init : List SDL_InitFlags → Int
  SDL_CreateWindow : String → Int → Int → List SDL_WindowFlags → Ptr
  SDL_GetWindowSize : Ptr → Int × Int
  SDL_GetWindowSizeInPixels : Ptr → Int × Int
  SDL_GetPrefPath : Option String → Option String → Option String
  SDL_GetClipboardText : Option String
  SDL_IsGameController : Int → Bool
  SDL_JoystickOpen : Int → Ptr
  SDL_JoystickName : Ptr → Option String
  SDL_JoystickNumButtons : Ptr → Int
  SDL_JoystickNumAxes : Ptr → Int
  SDL_JoystickGetVendor : Ptr → Nat
  SDL_JoystickGetProduct : Ptr → Nat
  SDL_JoystickGetProductVersion : Ptr → Nat
  SDL_JoystickInstanceID : Ptr → Int
  SDL_GameControllerOpen : Int → Ptr
  SDL_GameControllerName : Ptr → Option String
  SDL_GameControllerGetVendor : Ptr → Nat
  SDL_GameControllerGetProduct : Ptr → Nat
  SDL_GameControllerGetProductVersion : Ptr → Nat
  SDL_GameControllerGetJoystick : Ptr → Ptr
  FosterGetDevice : FosterRenderers → FosterDevice → Bool × FosterDevice
  device_initializeHook : Bool
  device_textureCreate : Int → Int → Int → Ptr
  device_targetCreate : Int → Int → Ptr → Int → Ptr
  device_targetGetAttachment : Ptr → Int → Ptr
  device_shaderCreate : Ptr → Ptr
  device_meshCreate : Ptr

/-- What an operation leaves behind: its return value, the runtime state on
return, and the effects it performed in order. -/
structure Outcome (H : FosterHeader) (α : Type) where
  ret : α
  state : FosterState H
  trace : List Effect

/-! ## Logging -/

/-- The function `FosterLogInfo`: nothing unless logging is enabled and an info
callback is registered; otherwise one call of `onLogInfo`. -/
def FosterLogInfo {H : FosterHeader} (s : FosterState H) (fmt : String)
    (args : List LogArg) : List Effect :=
  if s.desc.logging = .FOSTER_LOGGING_NONE ∨ s.desc.onLogInfo = false then []
  else [.onLogInfo fmt args]

/-- The function `FosterLogWarn`. -/
def FosterLogWarn {H : FosterHeader} (s : FosterState H) (fmt : String)
    (args : List LogArg) : List Effect :=
  if s.desc.logging = .FOSTER_LOGGING_NONE ∨ s.desc.onLogWarn = false then []
  else [.onLogWarn fmt args]

/-- The function `FosterLogError`. -/
def FosterLogError {H : FosterHeader} (s : FosterState H) (fmt : String)
    (args : List LogArg) : List Effect :=
  if s.desc.logging = .FOSTER_LOGGING_NONE ∨ s.desc.onLogError = false then []
  else [.onLogError fmt args]

/-- The failing branch of the macros `FOSTER_ASSERT_RUNNING` and
`FOSTER_ASSERT_RUNNING_RET`: the error log they emit, with the stringified macro
argument `func`, before returning. -/
def FOSTER_ASSERT_RUNNING {H : FosterHeader} (s : FosterState H) (func : String) :
    List Effect :=
  FosterLogError s "Failed '%s', Foster is not running" [.str func]

/-- The macro `FOSTER_CHECK`. -/
def FOSTER_CHECK (flags flag : Nat) : Bool :=
  (flags &&& flag) != 0

/-! ## Lifecycle -/

/-- The function `FosterSetFlags`. -/
def FosterSetFlags {H : FosterHeader} (s : FosterState H) (flags : Nat) : Outcome H Unit :=
  if !s.running then ⟨(), s, FOSTER_ASSERT_RUNNING s "FosterSetFlags"⟩
  else if flags ≠ s.flags then
    ⟨(), { s with flags := flags },
      [.SDL_SetWindowFullscreen s.window (FOSTER_CHECK flags H.FOSTER_FLAG_FULLSCREEN),
       .SDL_SetWindowResizable s.window (FOSTER_CHECK flags H.FOSTER_FLAG_RESIZABLE)]
      ++ (if s.device.renderer = .FOSTER_RENDERER_OPENGL then
            [.SDL_GL_SetSwapInterval (if FOSTER_CHECK flags H.FOSTER_FLAG_VSYNC then 1 else 0)]
          else [])⟩
  else ⟨(), s, []⟩

/-- The subsystem flags `sdl_init_flags` of `FosterStartup`. -/
def sdl_init_flags : List SDL_InitFlags :=
  [.SDL_INIT_VIDEO, .SDL_INIT_TIMER, .SDL_INIT_EVENTS, .SDL_INIT_JOYSTICK,
   .SDL_INIT_GAMECONTROLLER]

/-- The function `FosterStartup`, from the reset of the state to each early
return and the final flag toggle and window show. -/
def FosterStartup {H : FosterHeader} (host : Host) (s : FosterState H) (desc : FosterDesc) :
    Outcome H Unit :=
  if s.running then ⟨(), s, FosterLogError s "Foster is already running" []⟩
  else
    let s1 : FosterState H :=
      { s with
        desc := desc, flags := 0, window := none,
        windowCreateFlags := [.SDL_WINDOW_ALLOW_HIGHDPI, .SDL_WINDOW_HIDDEN],
        running := false,
        device := { s.device with renderer := .FOSTER_RENDERER_NONE },
        clipboardText := none, userPath := none }
    if s1.desc.width ≤ 0 ∨ s1.desc.height ≤ 0 then
      ⟨(), s1, FosterLogError s1 "Foster invalid application width/height (%i, %i)"
        [.int desc.width, .int desc.height]⟩
    else
      let t1 : List Effect :=
        FosterLogInfo s1 "SDL: v%i.%i.%i"
          [.int host.SDL_GetVersion.1, .int host.SDL_GetVersion.2.1,
           .int host.SDL_GetVersion.2.2]
        ++ (if desc.logging ≠ .FOSTER_LOGGING_NONE ∧
              (s1.desc.onLogInfo ∨ s1.desc.onLogWarn ∨ s1.desc.onLogError) then
              [.SDL_LogSetOutputFunction] else [])
        ++ [.SDL_SetHint "SDL_HINT_WINDOWS_DPI_AWARENESS" "permonitorv2",
            .SDL_SetHint "SDL_HINT_WINDOWS_DPI_SCALING" "1",
            .SDL_Init sdl_init_flags]
      if host.SDL_Init sdl_init_flags ≠ 0 then
        ⟨(), s1, t1 ++ FosterLogError s1 "Foster SDL_Init Failed: %s" [.str host.SDL_GetError]⟩
      else
        let got := host.FosterGetDevice s1.desc.renderer s1.device
        let s2 : FosterState H := { s1 with device := got.2 }
        let t2 := t1 ++ [.FosterGetDevice s1.desc.renderer]
        if !got.1 then
          ⟨(), s2, t2 ++ FosterLogError s2 "Foster Failed to get Renderer Device" []⟩
        else
          let t3 := t2 ++ (if s2.device.prepare then [.device_prepare] else [])
          let title := s2.desc.windowTitle.getD "Foster Application"
          let s3 : FosterState H :=
            { s2 with window := host.SDL_CreateWindow title s2.desc.width s2.desc.height
                        s2.windowCreateFlags }
          let t4 := t3 ++ [.SDL_CreateWindow title s2.desc.width s2.desc.height
                        s2.windowCreateFlags]
          if s3.window = none then
            ⟨(), s3, t4 ++ FosterLogError s3 "Foster SDL_CreateWindow Failed: %s"
              [.str host.SDL_GetError]⟩
          else
            let s4 : FosterState H := { s3 with running := true }
            let r := FosterSetFlags s4 s4.desc.flags
            if s4.device.initializeHook then
              if !host.device_initializeHook then
                ⟨(), { s4 with running := false },
                  t4 ++ [.device_initializeHook]
                  ++ FosterLogError s4 "Foster Failed to initialize Renderer Device" []
                  ++ [.SDL_DestroyWindow s4.window]⟩
              else
                ⟨(), r.state,
                  t4 ++ [.device_initializeHook] ++ r.trace ++ [.SDL_ShowWindow r.state.window]⟩
            else
              ⟨(), r.state, t4 ++ r.trace ++ [.SDL_ShowWindow r.state.window]⟩

/-- The function `FosterShutdown`. -/
def FosterShutdown {H : FosterHeader} (s : FosterState H) : Outcome H Unit :=
  if !s.running then ⟨(), s, []⟩
  else
    ⟨(), { s with clipboardText := none, running := false },
      (if s.device.shutdown then [.device_shutdown] else [])
      ++ (if s.clipboardText ≠ none then [.SDL_free s.clipboardText] else [])
      ++ (if s.userPath ≠ none then [.SDL_free s.userPath] else [])
      ++ [.SDL_DestroyWindow s.window]⟩

/-- The function `FosterIsRunning`. -/
def FosterIsRunning {H : FosterHeader} (s : FosterState H) : Bool :=
  s.running

/-! ## Enum translators -/

/-- The function `FosterGetKeyFromSDL`: the `switch` over the scancode, and
`FOSTER_KEY_UNKNOWN` after it for every value without a case label. -/
def FosterGetKeyFromSDL (key : SDL_Scancode) : FosterKeys :=
  match key with
  | .SDL_SCANCODE_UNKNOWN => .FOSTER_KEY_UNKNOWN
  | .SDL_SCANCODE_A => .FOSTER_KEY_A
  | .SDL_SCANCODE_B => .FOSTER_KEY_B
  | .SDL_SCANCODE_C => .FOSTER_KEY_C
  | .SDL_SCANCODE_D => .FOSTER_KEY_D
  | .SDL_SCANCODE_E => .FOSTER_KEY_E
  | .SDL_SCANCODE_F => .FOSTER_KEY_F
  | .SDL_SCANCODE_G => .FOSTER_KEY_G
  | .SDL_SCANCODE_H => .FOSTER_KEY_H
  | .SDL_SCANCODE_I => .FOSTER_KEY_I
  | .SDL_SCANCODE_J => .FOSTER_KEY_J
  | .SDL_SCANCODE_K => .FOSTER_KEY_K
  | .SDL_SCANCODE_L => .FOSTER_KEY_L
  | .SDL_SCANCODE_M => .FOSTER_KEY_M
  | .SDL_SCANCODE_N => .FOSTER_KEY_N
  | .SDL_SCANCODE_O => .FOSTER_KEY_O
  | .SDL_SCANCODE_P => .FOSTER_KEY_P
  | .SDL_SCANCODE_Q => .FOSTER_KEY_Q
  | .SDL_SCANCODE_R => .FOSTER_KEY_R
  | .SDL_SCANCODE_S => .FOSTER_KEY_S
  | .SDL_SCANCODE_T => .FOSTER_KEY_T
  | .SDL_SCANCODE_U => .FOSTER_KEY_U
  | .SDL_SCANCODE_V => .FOSTER_KEY_V
  | .SDL_SCANCODE_W => .FOSTER_KEY_W
  | .SDL_SCANCODE_X => .FOSTER_KEY_X
  | .SDL_SCANCODE_Y => .FOSTER_KEY_Y
  | .SDL_SCANCODE_Z => .FOSTER_KEY_Z
  | .SDL_SCANCODE_1 => .FOSTER_KEY_D1
  | .SDL_SCANCODE_2 => .FOSTER_KEY_D2
  | .SDL_SCANCODE_3 => .FOSTER_KEY_D3
  | .SDL_SCANCODE_4 => .FOSTER_KEY_D4
  | .SDL_SCANCODE_5 => .FOSTER_KEY_D5
  | .SDL_SCANCODE_6 => .FOSTER_KEY_D6
  | .SDL_SCANCODE_7 => .FOSTER_KEY_D7
  | .SDL_SCANCODE_8 => .FOSTER_KEY_D8
  | .SDL_SCANCODE_9 => .FOSTER_KEY_D9
  | .SDL_SCANCODE_0 => .FOSTER_KEY_D0
  | .SDL_SCANCODE_RETURN => .FOSTER_KEY_ENTER
  | .SDL_SCANCODE_ESCAPE => .FOSTER_KEY_ESCAPE
  | .SDL_SCANCODE_BACKSPACE => .FOSTER_KEY_BACKSPACE
  | .SDL_SCANCODE_TAB => .FOSTER_KEY_TAB
  | .SDL_SCANCODE_SPACE => .FOSTER_KEY_SPACE
  | .SDL_SCANCODE_MINUS => .FOSTER_KEY_MINUS
  | .SDL_SCANCODE_EQUALS => .FOSTER_KEY_EQUALS
  | .SDL_SCANCODE_LEFTBRACKET => .FOSTER_KEY_LEFTBRACKET
  | .SDL_SCANCODE_RIGHTBRACKET => .FOSTER_KEY_RIGHTBRACKET
  | .SDL_SCANCODE_BACKSLASH => .FOSTER_KEY_BACKSLASH
  | .SDL_SCANCODE_SEMICOLON => .FOSTER_KEY_SEMICOLON
  | .SDL_SCANCODE_APOSTROPHE => .FOSTER_KEY_APOSTROPHE
  | .SDL_SCANCODE_GRAVE => .FOSTER_KEY_TILDE
  | .SDL_SCANCODE_COMMA => .FOSTER_KEY_COMMA
  | .SDL_SCANCODE_PERIOD => .FOSTER_KEY_PERIOD
  | .SDL_SCANCODE_SLASH => .FOSTER_KEY_SLASH
  | .SDL_SCANCODE_CAPSLOCK => .FOSTER_KEY_CAPSLOCK
  | .SDL_SCANCODE_F1 => .FOSTER_KEY_F1
  | .SDL_SCANCODE_F2 => .FOSTER_KEY_F2
  | .SDL_SCANCODE_F3 => .FOSTER_KEY_F3
  | .SDL_SCANCODE_F4 => .FOSTER_KEY_F4
  | .SDL_SCANCODE_F5 => .FOSTER_KEY_F5
  | .SDL_SCANCODE_F6 => .FOSTER_KEY_F6
  | .SDL_SCANCODE_F7 => .FOSTER_KEY_F7
  | .SDL_SCANCODE_F8 => .FOSTER_KEY_F8
  | .SDL_SCANCODE_F9 => .FOSTER_KEY_F9
  | .SDL_SCANCODE_F10 => .FOSTER_KEY_F10
  | .SDL_SCANCODE_F11 => .FOSTER_KEY_F11
  | .SDL_SCANCODE_F12 => .FOSTER_KEY_F12
  | .SDL_SCANCODE_PRINTSCREEN => .FOSTER_KEY_PRINTSCREEN
  | .SDL_SCANCODE_SCROLLLOCK => .FOSTER_KEY_SCROLLLOCK
  | .SDL_SCANCODE_PAUSE => .FOSTER_KEY_PAUSE
  | .SDL_SCANCODE_INSERT => .FOSTER_KEY_INSERT
  | .SDL_SCANCODE_HOME => .FOSTER_KEY_HOME
  | .SDL_SCANCODE_PAGEUP => .FOSTER_KEY_PAGEUP
  | .SDL_SCANCODE_DELETE => .FOSTER_KEY_DELETE
  | .SDL_SCANCODE_END => .FOSTER_KEY_END
  | .SDL_SCANCODE_PAGEDOWN => .FOSTER_KEY_PAGEDOWN
  | .SDL_SCANCODE_RIGHT => .FOSTER_KEY_RIGHT
  | .SDL_SCANCODE_LEFT => .FOSTER_KEY_LEFT
  | .SDL_SCANCODE_DOWN => .FOSTER_KEY_DOWN
  | .SDL_SCANCODE_UP => .FOSTER_KEY_UP
  | .SDL_SCANCODE_KP_DIVIDE => .FOSTER_KEY_KEYPAD_DIVIDE
  | .SDL_SCANCODE_KP_MULTIPLY => .FOSTER_KEY_KEYPAD_MULTIPLY
  | .SDL_SCANCODE_KP_MINUS => .FOSTER_KEY_KEYPAD_MINUS
  | .SDL_SCANCODE_KP_PLUS => .FOSTER_KEY_KEYPAD_PLUS
  | .SDL_SCANCODE_KP_ENTER => .FOSTER_KEY_KEYPAD_ENTER
  | .SDL_SCANCODE_KP_1 => .FOSTER_KEY_KEYPAD_1
  | .SDL_SCANCODE_KP_2 => .FOSTER_KEY_KEYPAD_2
  | .SDL_SCANCODE_KP_3 => .FOSTER_KEY_KEYPAD_3
  | .SDL_SCANCODE_KP_4 => .FOSTER_KEY_KEYPAD_4
  | .SDL_SCANCODE_KP_5 => .FOSTER_KEY_KEYPAD_5
  | .SDL_SCANCODE_KP_6 => .FOSTER_KEY_KEYPAD_6
  | .SDL_SCANCODE_KP_7 => .FOSTER_KEY_KEYPAD_7
  | .SDL_SCANCODE_KP_8 => .FOSTER_KEY_KEYPAD_8
  | .SDL_SCANCODE_KP_9 => .FOSTER_KEY_KEYPAD_9
  | .SDL_SCANCODE_KP_0 => .FOSTER_KEY_KEYPAD_0
  | .SDL_SCANCODE_APPLICATION => .FOSTER_KEY_APPLICATION
  | .SDL_SCANCODE_KP_EQUALS => .FOSTER_KEY_KEYPAD_EQUALS
  | .SDL_SCANCODE_F13 => .FOSTER_KEY_F13
  | .SDL_SCANCODE_F14 => .FOSTER_KEY_F14
  | .SDL_SCANCODE_F15 => .FOSTER_KEY_F15
  | .SDL_SCANCODE_F16 => .FOSTER_KEY_F16
  | .SDL_SCANCODE_F17 => .FOSTER_KEY_F17
  | .SDL_SCANCODE_F18 => .FOSTER_KEY_F18
  | .SDL_SCANCODE_F19 => .FOSTER_KEY_F19
  | .SDL_SCANCODE_F20 => .FOSTER_KEY_F20
  | .SDL_SCANCODE_F21 => .FOSTER_KEY_F21
  | .SDL_SCANCODE_F22 => .FOSTER_KEY_F22
  | .SDL_SCANCODE_F23 => .FOSTER_KEY_F23
  | .SDL_SCANCODE_F24 => .FOSTER_KEY_F24
  | .SDL_SCANCODE_EXECUTE => .FOSTER_KEY_EXECUTE
  | .SDL_SCANCODE_HELP => .FOSTER_KEY_HELP
  | .SDL_SCANCODE_MENU => .FOSTER_KEY_MENU
  | .SDL_SCANCODE_SELECT => .FOSTER_KEY_SELECT
  | .SDL_SCANCODE_STOP => .FOSTER_KEY_STOP
  | .SDL_SCANCODE_UNDO => .FOSTER_KEY_UNDO
  | .SDL_SCANCODE_CUT => .FOSTER_KEY_CUT
  | .SDL_SCANCODE_COPY => .FOSTER_KEY_COPY
  | .SDL_SCANCODE_PASTE => .FOSTER_KEY_PASTE
  | .SDL_SCANCODE_FIND => .FOSTER_KEY_FIND
  | .SDL_SCANCODE_MUTE => .FOSTER_KEY_MUTE
  | .SDL_SCANCODE_VOLUMEUP => .FOSTER_KEY_VOLUMEUP
  | .SDL_SCANCODE_VOLUMEDOWN => .FOSTER_KEY_VOLUMEDOWN
  | .SDL_SCANCODE_KP_COMMA => .FOSTER_KEY_KEYPAD_COMMA
  | .SDL_SCANCODE_ALTERASE => .FOSTER_KEY_ALTERASE
  | .SDL_SCANCODE_SYSREQ => .FOSTER_KEY_SYSREQ
  | .SDL_SCANCODE_CANCEL => .FOSTER_KEY_CANCEL
  | .SDL_SCANCODE_CLEAR => .FOSTER_KEY_CLEAR
  | .SDL_SCANCODE_PRIOR => .FOSTER_KEY_PRIOR
  | .SDL_SCANCODE_RETURN2 => .FOSTER_KEY_ENTER2
  | .SDL_SCANCODE_SEPARATOR => .FOSTER_KEY_SEPARATOR
  | .SDL_SCANCODE_OUT => .FOSTER_KEY_OUT
  | .SDL_SCANCODE_OPER => .FOSTER_KEY_OPER
  | .SDL_SCANCODE_CLEARAGAIN => .FOSTER_KEY_CLEARAGAIN
  | .SDL_SCANCODE_KP_00 => .FOSTER_KEY_KEYPAD_00
  | .SDL_SCANCODE_KP_000 => .FOSTER_KEY_KEYPAD_000
  | .SDL_SCANCODE_KP_LEFTPAREN => .FOSTER_KEY_KEYPAD_LEFT_PAREN
  | .SDL_SCANCODE_KP_RIGHTPAREN => .FOSTER_KEY_KEYPAD_RIGHT_PAREN
  | .SDL_SCANCODE_KP_LEFTBRACE => .FOSTER_KEY_KEYPAD_LEFT_BRACE
  | .SDL_SCANCODE_KP_RIGHTBRACE => .FOSTER_KEY_KEYPAD_RIGHT_BRACE
  | .SDL_SCANCODE_KP_TAB => .FOSTER_KEY_KEYPAD_TAB
  | .SDL_SCANCODE_KP_BACKSPACE => .FOSTER_KEY_KEYPAD_BACKSPACE
  | .SDL_SCANCODE_KP_A => .FOSTER_KEY_KEYPAD_A
  | .SDL_SCANCODE_KP_B => .FOSTER_KEY_KEYPAD_B
  | .SDL_SCANCODE_KP_C => .FOSTER_KEY_KEYPAD_C
  | .SDL_SCANCODE_KP_D => .FOSTER_KEY_KEYPAD_D
  | .SDL_SCANCODE_KP_E => .FOSTER_KEY_KEYPAD_E
  | .SDL_SCANCODE_KP_F => .FOSTER_KEY_KEYPAD_F
  | .SDL_SCANCODE_KP_XOR => .FOSTER_KEY_KEYPAD_XOR
  | .SDL_SCANCODE_KP_POWER => .FOSTER_KEY_KEYPAD_POWER
  | .SDL_SCANCODE_KP_PERCENT => .FOSTER_KEY_KEYPAD_PERCENT
  | .SDL_SCANCODE_KP_LESS => .FOSTER_KEY_KEYPAD_LESS
  | .SDL_SCANCODE_KP_GREATER => .FOSTER_KEY_KEYPAD_GREATER
  | .SDL_SCANCODE_KP_AMPERSAND => .FOSTER_KEY_KEYPAD_AMPERSAND
  | .SDL_SCANCODE_KP_COLON => .FOSTER_KEY_KEYPAD_COLON
  | .SDL_SCANCODE_KP_HASH => .FOSTER_KEY_KEYPAD_HASH
  | .SDL_SCANCODE_KP_SPACE => .FOSTER_KEY_KEYPAD_SPACE
  | .SDL_SCANCODE_KP_CLEAR => .FOSTER_KEY_KEYPAD_CLEAR
  | .SDL_SCANCODE_LCTRL => .FOSTER_KEY_LEFT_CONTROL
  | .SDL_SCANCODE_LSHIFT => .FOSTER_KEY_LEFT_SHIFT
  | .SDL_SCANCODE_LALT => .FOSTER_KEY_LEFT_ALT
  | .SDL_SCANCODE_LGUI => .FOSTER_KEY_LEFT_OS
  | .SDL_SCANCODE_RCTRL => .FOSTER_KEY_RIGHT_CONTROL
  | .SDL_SCANCODE_RSHIFT => .FOSTER_KEY_RIGHT_SHIFT
  | .SDL_SCANCODE_RALT => .FOSTER_KEY_RIGHT_ALT
  | .SDL_SCANCODE_RGUI => .FOSTER_KEY_RIGHT_OS
  | .other _ => .FOSTER_KEY_UNKNOWN

/-- Whether a scancode is one of the case labels of the `switch` in
`FosterGetKeyFromSDL`: every scancode except the ones gathered in `other`. -/
def SDL_Scancode.hasCaseLabel : SDL_Scancode → Bool
  | .other _ => false
  | _ => true

/-- Value of `SDL_CONTROLLER_BUTTON_INVALID` in SDL2. -/
def SDL_CONTROLLER_BUTTON_INVALID : Int := -1
/-- Value of `SDL_CONTROLLER_BUTTON_A` in SDL2. -/
def SDL_CONTROLLER_BUTTON_A : Int := 0
/-- Value of `SDL_CONTROLLER_BUTTON_B` in SDL2. -/
def SDL_CONTROLLER_BUTTON_B : Int := 1
/-- Value of `SDL_CONTROLLER_BUTTON_X` in SDL2. -/
def SDL_CONTROLLER_BUTTON_X : Int := 2
/-- Value of `SDL_CONTROLLER_BUTTON_Y` in SDL2. -/
def SDL_CONTROLLER_BUTTON_Y : Int := 3
/-- Value of `SDL_CONTROLLER_BUTTON_BACK` in SDL2. -/
def SDL_CONTROLLER_BUTTON_BACK : Int := 4
/-- Value of `SDL_CONTROLLER_BUTTON_GUIDE` in SDL2. -/
def SDL_CONTROLLER_BUTTON_GUIDE : Int := 5
/-- Value of `SDL_CONTROLLER_BUTTON_START` in SDL2. -/
def SDL_CONTROLLER_BUTTON_START : Int := 6
/-- Value of `SDL_CONTROLLER_BUTTON_LEFTSTICK` in SDL2. -/
def SDL_CONTROLLER_BUTTON_LEFTSTICK : Int := 7
/-- Value of `SDL_CONTROLLER_BUTTON_RIGHTSTICK` in SDL2. -/
def SDL_CONTROLLER_BUTTON_RIGHTSTICK : Int := 8
/-- Value of `SDL_CONTROLLER_BUTTON_LEFTSHOULDER` in SDL2. -/
def SDL_CONTROLLER_BUTTON_LEFTSHOULDER : Int := 9
/-- Value of `SDL_CONTROLLER_BUTTON_RIGHTSHOULDER` in SDL2. -/
def SDL_CONTROLLER_BUTTON_RIGHTSHOULDER : Int := 10
/-- Value of `SDL_CONTROLLER_BUTTON_DPAD_UP` in SDL2. -/
def SDL_CONTROLLER_BUTTON_DPAD_UP : Int := 11
/-- Value of `SDL_CONTROLLER_BUTTON_DPAD_DOWN` in SDL2. -/
def SDL_CONTROLLER_BUTTON_DPAD_DOWN : Int := 12
/-- Value of `SDL_CONTROLLER_BUTTON_DPAD_LEFT` in SDL2. -/
def SDL_CONTROLLER_BUTTON_DPAD_LEFT : Int := 13
/-- Value of `SDL_CONTROLLER_BUTTON_DPAD_RIGHT` in SDL2. -/
def SDL_CONTROLLER_BUTTON_DPAD_RIGHT : Int := 14

/-- The function `FosterGetButtonFromSDL`. -/
def FosterGetButtonFromSDL (button : Int) : FosterButtons :=
  if button = SDL_CONTROLLER_BUTTON_INVALID then .FOSTER_BUTTON_NONE
  else if button = SDL_CONTROLLER_BUTTON_A then .FOSTER_BUTTON_A
  else if button = SDL_CONTROLLER_BUTTON_B then .FOSTER_BUTTON_B
  else if button = SDL_CONTROLLER_BUTTON_X then .FOSTER_BUTTON_X
  else if button = SDL_CONTROLLER_BUTTON_Y then .FOSTER_BUTTON_Y
  else if button = SDL_CONTROLLER_BUTTON_BACK then .FOSTER_BUTTON_BACK
  else if button = SDL_CONTROLLER_BUTTON_GUIDE then .FOSTER_BUTTON_SELECT
  else if button = SDL_CONTROLLER_BUTTON_START then .FOSTER_BUTTON_START
  else if button = SDL_CONTROLLER_BUTTON_LEFTSTICK then .FOSTER_BUTTON_LEFTSTICK
  else if button = SDL_CONTROLLER_BUTTON_RIGHTSTICK then .FOSTER_BUTTON_RIGHTSTICK
  else if button = SDL_CONTROLLER_BUTTON_LEFTSHOULDER then .FOSTER_BUTTON_LEFTSHOULDER
  else if button = SDL_CONTROLLER_BUTTON_RIGHTSHOULDER then .FOSTER_BUTTON_RIGHTSHOULDER
  else if button = SDL_CONTROLLER_BUTTON_DPAD_UP then .FOSTER_BUTTON_UP
  else if button = SDL_CONTROLLER_BUTTON_DPAD_DOWN then .FOSTER_BUTTON_DOWN
  else if button = SDL_CONTROLLER_BUTTON_DPAD_LEFT then .FOSTER_BUTTON_LEFT
  else if button = SDL_CONTROLLER_BUTTON_DPAD_RIGHT then .FOSTER_BUTTON_RIGHT
  else .FOSTER_BUTTON_NONE

/-- Value of `SDL_BUTTON_LEFT` in SDL2. -/
def SDL_BUTTON_LEFT : Nat := 1
/-- Value of `SDL_BUTTON_MIDDLE` in SDL2. -/
def SDL_BUTTON_MIDDLE : Nat := 2
/-- Value of `SDL_BUTTON_RIGHT` in SDL2. -/
def SDL_BUTTON_RIGHT : Nat := 3

/-- The function `FosterGetMouseFromSDL`. -/
def FosterGetMouseFromSDL (button : Nat) : FosterMouse :=
  if button = SDL_BUTTON_LEFT then .FOSTER_MOUSE_LEFT
  else if button = SDL_BUTTON_RIGHT then .FOSTER_MOUSE_RIGHT
  else if button = SDL_BUTTON_MIDDLE then .FOSTER_MOUSE_MIDDLE
  else .FOSTER_MOUSE_NONE

/-- Value of `SDL_CONTROLLER_AXIS_INVALID` in SDL2. -/
def SDL_CONTROLLER_AXIS_INVALID : Int := -1
/-- Value of `SDL_CONTROLLER_AXIS_LEFTX` in SDL2. -/
def SDL_CONTROLLER_AXIS_LEFTX : Int := 0
/-- Value of `SDL_CONTROLLER_AXIS_LEFTY` in SDL2. -/
def SDL_CONTROLLER_AXIS_LEFTY : Int := 1
/-- Value of `SDL_CONTROLLER_AXIS_RIGHTX` in SDL2. -/
def SDL_CONTROLLER_AXIS_RIGHTX : Int := 2
/-- Value of `SDL_CONTROLLER_AXIS_RIGHTY` in SDL2. -/
def SDL_CONTROLLER_AXIS_RIGHTY : Int := 3
/-- Value of `SDL_CONTROLLER_AXIS_TRIGGERLEFT` in SDL2. -/
def SDL_CONTROLLER_AXIS_TRIGGERLEFT : Int := 4
/-- Value of `SDL_CONTROLLER_AXIS_TRIGGERRIGHT` in SDL2. -/
def SDL_CONTROLLER_AXIS_TRIGGERRIGHT : Int := 5

/-- The function `FosterGetAxisFromSDL`. -/
def FosterGetAxisFromSDL (axis : Int) : FosterAxis :=
  if axis = SDL_CONTROLLER_AXIS_INVALID then .FOSTER_AXIS_NONE
  else if axis = SDL_CONTROLLER_AXIS_LEFTX then .FOSTER_AXIS_LEFT_X
  else if axis = SDL_CONTROLLER_AXIS_LEFTY then .FOSTER_AXIS_LEFT_Y
  else if axis = SDL_CONTROLLER_AXIS_RIGHTX then .FOSTER_AXIS_RIGHT_X
  else if axis = SDL_CONTROLLER_AXIS_RIGHTY then .FOSTER_AXIS_RIGHT_Y
  else if axis = SDL_CONTROLLER_AXIS_TRIGGERLEFT then .FOSTER_AXIS_LEFT_TRIGGER
  else if axis = SDL_CONTROLLER_AXIS_TRIGGERRIGHT then .FOSTER_AXIS_RIGHT_TRIGGER
  else .FOSTER_AXIS_NONE

/-- The six controller axes that have a case label of their own in
`FosterGetAxisFromSDL` besides `SDL_CONTROLLER_AXIS_INVALID`. -/
def FosterGetAxisFromSDL_cases : List Int :=
  [SDL_CONTROLLER_AXIS_LEFTX, SDL_CONTROLLER_AXIS_LEFTY, SDL_CONTROLLER_AXIS_RIGHTX,
   SDL_CONTROLLER_AXIS_RIGHTY, SDL_CONTROLLER_AXIS_TRIGGERLEFT,
   SDL_CONTROLLER_AXIS_TRIGGERRIGHT]

/-! ## Device index registry -/

/-- Read of `table[index]`.  The C code reads a slot only at an index inside the
table; outside it this read yields `NULL`. -/
def readSlot {n : Nat} (table : Fin n → Ptr) (index : Int) : Ptr :=
  if h : 0 ≤ index ∧ index < (n : Int) then table ⟨index.toNat, by omega⟩ else none

/-- Assignment `table[index] = value`: the entry whose position is `index`
becomes `value`, every other entry is kept. -/
def writeSlot {n : Nat} (table : Fin n → Ptr) (index : Int) (value : Ptr) : Fin n → Ptr :=
  fun j => if ((j : Nat) : Int) = index then value else table j

/-- The `for` loop of `FosterFindJoystickIndexSDL` from loop variable `i` on;
`fuel` bounds the remaining iterations. -/
def FosterFindJoystickIndexSDL_loop {n : Nat} (host : Host) (joysticks : Fin n → Ptr)
    (instanceID : Int) (i : Nat) : Nat → Int
  | 0 => -1
  | fuel + 1 =>
    if h : i < n then
      if joysticks ⟨i, h⟩ ≠ none ∧
          host.SDL_JoystickInstanceID (joysticks ⟨i, h⟩) = instanceID then (i : Int)
      else FosterFindJoystickIndexSDL_loop host joysticks instanceID (i + 1) fuel
    else -1

/-- The function `FosterFindJoystickIndexSDL`: the loop from `0`, with one unit
of fuel for each of the `FOSTER_MAX_CONTROLLERS` iterations. -/
def FosterFindJoystickIndexSDL {n : Nat} (host : Host) (joysticks : Fin n → Ptr)
    (instanceID : Int) : Int :=
  FosterFindJoystickIndexSDL_loop host joysticks instanceID 0 n

/-- The `for` loop of `FosterFindGamepadIndexSDL` from loop variable `i` on. -/
def FosterFindGamepadIndexSDL_loop {n : Nat} (host : Host) (gamepads : Fin n → Ptr)
    (instanceID : Int) (i : Nat) : Nat → Int
  | 0 => -1
  | fuel + 1 =>
    if h : i < n then
      if gamepads ⟨i, h⟩ ≠ none then
        let joystick := host.SDL_GameControllerGetJoystick (gamepads ⟨i, h⟩)
        if host.SDL_JoystickInstanceID joystick = instanceID then (i : Int)
        else FosterFindGamepadIndexSDL_loop host gamepads instanceID (i + 1) fuel
      else FosterFindGamepadIndexSDL_loop host gamepads instanceID (i + 1) fuel
    else -1

/-- The function `FosterFindGamepadIndexSDL`. -/
def FosterFindGamepadIndexSDL {n : Nat} (host : Host) (gamepads : Fin n → Ptr)
    (instanceID : Int) : Int :=
  FosterFindGamepadIndexSDL_loop host gamepads instanceID 0 n

/-! ## Event pump -/

/-- A host event as `FosterPollEvents` reads it: the event type with the fields
of the `SDL_Event` union the matching branch uses (`which` is the device index
of an added event and the instance id of every other device event), and `other`
for every event type without a branch. -/
inductive SDL_Event where
  | SDL_QUIT
  | SDL_MOUSEBUTTONDOWN (button : Nat)
  | SDL_MOUSEBUTTONUP (button : Nat)
  | SDL_MOUSEWHEEL (x y : Int)
  | SDL_KEYDOWN (scancode : SDL_Scancode) (repeat_ : Nat)
  | SDL_KEYUP (scancode : SDL_Scancode) (repeat_ : Nat)
  | SDL_TEXTINPUT (text : String)
  | SDL_JOYDEVICEADDED (which : Int)
  | SDL_JOYDEVICEREMOVED (which : Int)
  | SDL_JOYBUTTONDOWN (which : Int) (button : Nat)
  | SDL_JOYBUTTONUP (which : Int) (button : Nat)
  | SDL_JOYAXISMOTION (which : Int) (axis : Nat) (value : Int)
  | SDL_CONTROLLERDEVICEADDED (which : Int)
  | SDL_CONTROLLERDEVICEREMOVED (which : Int)
  | SDL_CONTROLLERBUTTONDOWN (which : Int) (button : Nat)
  | SDL_CONTROLLERBUTTONUP (which : Int) (button : Nat)
  | SDL_CONTROLLERAXISMOTION (which : Int) (axis : Nat) (value : Int)
  | other (type : Nat)

/-- The computation of `value` in the `SDL_JOYAXISMOTION` and
`SDL_CONTROLLERAXISMOTION` branches of `FosterPollEvents`, with the two float
divisions taken as exact divisions of rationals. -/
def axis_value (value : Int) : ℚ :=
  if value ≥ 0 then (value : ℚ) / 32767 else (value : ℚ) / 32768

/-- A call of a callback of the description that the C code does not test
against `NULL`: the effect when the callback is registered, a fault otherwise. -/
def invoke (registered : Bool) (e : Effect) : Option (List Effect) :=
  if registered then some [e] else none

/-- The body of the `while (SDL_PollEvent(&event))` loop of `FosterPollEvents`
for one event: the state after it and the effects performed, or `none` when a
`NULL` callback is called. -/
def FosterPollEvents_event {H : FosterHeader} (host : Host) (s : FosterState H)
    (event : SDL_Event) : Option (FosterState H × List Effect) :=
  match event with
  | .SDL_QUIT =>
    if s.desc.onExitRequest then some (s, [.onExitRequest]) else some (s, [])
  | .SDL_MOUSEBUTTONDOWN button =>
    (invoke s.desc.onMouseButton (.onMouseButton (FosterGetMouseFromSDL button) true)).map
      fun t => (s, t)
  | .SDL_MOUSEBUTTONUP button =>
    (invoke s.desc.onMouseButton (.onMouseButton (FosterGetMouseFromSDL button) false)).map
      fun t => (s, t)
  | .SDL_MOUSEWHEEL x y =>
    (invoke s.desc.onMouseWheel (.onMouseWheel x y)).map fun t => (s, t)
  | .SDL_KEYDOWN scancode repeat_ =>
    if repeat_ = 0 then
      (invoke s.desc.onKey (.onKey (FosterGetKeyFromSDL scancode) true)).map fun t => (s, t)
    else some (s, [])
  | .SDL_KEYUP scancode repeat_ =>
    if repeat_ = 0 then
      (invoke s.desc.onKey (.onKey (FosterGetKeyFromSDL scancode) false)).map fun t => (s, t)
    else some (s, [])
  | .SDL_TEXTINPUT text =>
    (invoke s.desc.onText (.onText text)).map fun t => (s, t)
  | .SDL_JOYDEVICEADDED which =>
    let index := which
    if host.SDL_IsGameController index = false ∧ index ≥ 0 ∧
        index < (H.FOSTER_MAX_CONTROLLERS : Int) then
      let ptr := host.SDL_JoystickOpen index
      let s1 : FosterState H := { s with joysticks := writeSlot s.joysticks index ptr }
      let name := host.SDL_JoystickName ptr
      let button_count := host.SDL_JoystickNumButtons ptr
      let axis_count := host.SDL_JoystickNumAxes ptr
      let vendor := host.SDL_JoystickGetVendor ptr
      let product := host.SDL_JoystickGetProduct ptr
      let version := host.SDL_JoystickGetProductVersion ptr
      (invoke s1.desc.onControllerConnect
        (.onControllerConnect index name button_count 0 axis_count vendor product version)).map
        fun t => (s1, Effect.SDL_JoystickOpen index :: t)
    else some (s, [])
  | .SDL_JOYDEVICEREMOVED which =>
    let index := FosterFindJoystickIndexSDL host s.joysticks which
    if index ≥ 0 then
      if host.SDL_IsGameController index = false then
        (invoke s.desc.onControllerDisconnect (.onControllerDisconnect index)).map
          fun t => (s, t ++ [Effect.SDL_JoystickClose (readSlot s.joysticks index)])
      else some (s, [])
    else some (s, [])
  | .SDL_JOYBUTTONDOWN which button =>
    let index := FosterFindJoystickIndexSDL host s.joysticks which
    if index ≥ 0 ∧ host.SDL_IsGameController index = false then
      (invoke s.desc.onControllerButton (.onControllerButton index (.raw button) true)).map
        fun t => (s, t)
    else some (s, [])
  | .SDL_JOYBUTTONUP which button =>
    let index := FosterFindJoystickIndexSDL host s.joysticks which
    if index ≥ 0 ∧ host.SDL_IsGameController index = false then
      (invoke s.desc.onControllerButton (.onControllerButton index (.raw button) false)).map
        fun t => (s, t)
    else some (s, [])
  | .SDL_JOYAXISMOTION which axis value =>
    let index := FosterFindJoystickIndexSDL host s.joysticks which
    if index ≥ 0 ∧ host.SDL_IsGameController index = false then
      (invoke s.desc.onControllerAxis
        (.onControllerAxis index (.raw axis) (axis_value value))).map fun t => (s, t)
    else some (s, [])
  | .SDL_CONTROLLERDEVICEADDED which =>
    let index := which
    if index ≥ 0 ∧ index < (H.FOSTER_MAX_CONTROLLERS : Int) then
      let ptr := host.SDL_GameControllerOpen index
      let s1 : FosterState H := { s with gamepads := writeSlot s.gamepads index ptr }
      let name := host.SDL_GameControllerName ptr
      let vendor := host.SDL_GameControllerGetVendor ptr
      let product := host.SDL_GameControllerGetProduct ptr
      let version := host.SDL_GameControllerGetProductVersion ptr
      (invoke s1.desc.onControllerConnect
        (.onControllerConnect index name 15 6 1 vendor product version)).map
        fun t => (s1, Effect.SDL_GameControllerOpen index :: t)
    else some (s, [])
  | .SDL_CONTROLLERDEVICEREMOVED which =>
    let index := FosterFindGamepadIndexSDL host s.gamepads which
    if index ≥ 0 then
      (invoke s.desc.onControllerDisconnect (.onControllerDisconnect index)).map
        fun t => (s, t ++ [Effect.SDL_GameControllerClose (readSlot s.gamepads index)])
    else some (s, [])
  | .SDL_CONTROLLERBUTTONDOWN which button =>
    let index := FosterFindGamepadIndexSDL host s.gamepads which
    if index ≥ 0 then
      let b : FosterButtons :=
        if (button : Int) ≥ 0 ∧ (button : Int) < 15 then FosterGetButtonFromSDL button
        else .FOSTER_BUTTON_NONE
      (invoke s.desc.onControllerButton (.onControllerButton index (.button b) true)).map
        fun t => (s, t)
    else some (s, [])
  | .SDL_CONTROLLERBUTTONUP which button =>
    let index := FosterFindGamepadIndexSDL host s.gamepads which
    if index ≥ 0 then
      let b : FosterButtons :=
        if (button : Int) ≥ 0 ∧ (button : Int) < 15 then FosterGetButtonFromSDL button
        else .FOSTER_BUTTON_NONE
      (invoke s.desc.onControllerButton (.onControllerButton index (.button b) false)).map
        fun t => (s, t)
    else some (s, [])
  | .SDL_CONTROLLERAXISMOTION which axis value =>
    let index := FosterFindGamepadIndexSDL host s.gamepads which
    if index ≥ 0 then
      let a : FosterAxis :=
        if (axis : Int) ≥ 0 ∧ (axis : Int) < 6 then FosterGetAxisFromSDL axis
        else .FOSTER_AXIS_NONE
      (invoke s.desc.onControllerAxis
        (.onControllerAxis index (.axis a) (axis_value value))).map fun t => (s, t)
    else some (s, [])
  | .other _ => some (s, [])

/-- The `while (SDL_PollEvent(&event))` loop of `FosterPollEvents` over the
events that are pending, oldest first. -/
def FosterPollEvents_loop {H : FosterHeader} (host : Host) :
    FosterState H → List SDL_Event → Option (FosterState H × List Effect)
  | s, [] => some (s, [])
  | s, event :: pending =>
    match FosterPollEvents_event host s event with
    | none => none
    | some (s1, t1) =>
      match FosterPollEvents_loop host s1 pending with
      | none => none
      | some (s2, t2) => some (s2, t1 ++ t2)

/-- The function `FosterPollEvents`, draining the `pending` events.  Its guard
passes `FosterBeginFrame` to the macro, as the source does. -/
def FosterPollEvents {H : FosterHeader} (host : Host) (s : FosterState H)
    (pending : List SDL_Event) : Option (Outcome H Unit) :=
  if !s.running then some ⟨(), s, FOSTER_ASSERT_RUNNING s "FosterBeginFrame"⟩
  else (FosterPollEvents_loop host s pending).map fun r => ⟨(), r.1, r.2⟩

/-! ## Guarded entry points -/

/-- The function `FosterBeginFrame`. -/
def FosterBeginFrame {H : FosterHeader} (s : FosterState H) : Outcome H Unit :=
  if !s.running then ⟨(), s, FOSTER_ASSERT_RUNNING s "FosterBeginFrame"⟩
  else ⟨(), s, if s.device.frameBegin then [.device_frameBegin] else []⟩

/-- The function `FosterEndFrame`. -/
def FosterEndFrame {H : FosterHeader} (s : FosterState H) : Outcome H Unit :=
  if !s.running then ⟨(), s, FOSTER_ASSERT_RUNNING s "FosterEndFrame"⟩
  else ⟨(), s, if s.device.frameEnd then [.device_frameEnd] else []⟩

/-- The function `FosterSetTitle`. -/
def FosterSetTitle {H : FosterHeader} (s : FosterState H) (title : Option String) :
    Outcome H Unit :=
  if !s.running then ⟨(), s, FOSTER_ASSERT_RUNNING s "FosterSetTitle"⟩
  else ⟨(), s, [.SDL_SetWindowTitle s.window title]⟩

/-- The function `FosterSetSize`. -/
def FosterSetSize {H : FosterHeader} (s : FosterState H) (width height : Int) :
    Outcome H Unit :=
  if !s.running then ⟨(), s, FOSTER_ASSERT_RUNNING s "FosterSetSize"⟩
  else ⟨(), s, [.SDL_SetWindowSize s.window width height]⟩

/-- The function `FosterGetSize`.  The result is what the call stores through
`width` and `height`: `none` when it stores nothing. -/
def FosterGetSize {H : FosterHeader} (host : Host) (s : FosterState H) :
    Outcome H (Option (Int × Int)) :=
  if !s.running then ⟨none, s, FOSTER_ASSERT_RUNNING s "FosterGetSize"⟩
  else ⟨some (host.SDL_GetWindowSize s.window), s, [.SDL_GetWindowSize s.window]⟩

/-- The function `FosterGetSizeInPixels`.  The result is what the call stores
through `width` and `height`: `none` when it stores nothing. -/
def FosterGetSizeInPixels {H : FosterHeader} (host : Host) (s : FosterState H) :
    Outcome H (Option (Int × Int)) :=
  if !s.running then ⟨none, s, FOSTER_ASSERT_RUNNING s "FosterGetSizeInPixels"⟩
  else
    ⟨some (host.SDL_GetWindowSizeInPixels s.window), s,
      [.SDL_GetWindowSizeInPixels s.window]⟩

/-- The function `FosterGetUserPath`. -/
def FosterGetUserPath {H : FosterHeader} (host : Host) (s : FosterState H) :
    Outcome H (Option String) :=
  if !s.running then ⟨none, s, FOSTER_ASSERT_RUNNING s "FosterGetUserPath"⟩
  else if s.userPath = none then
    let s1 : FosterState H :=
      { s with userPath := host.SDL_GetPrefPath none s.desc.applicationName }
    ⟨s1.userPath, s1, [.SDL_GetPrefPath none s.desc.applicationName]⟩
  else ⟨s.userPath, s, []⟩

/-- The function `FosterSetClipboard`. -/
def FosterSetClipboard {H : FosterHeader} (s : FosterState H) (cstr : Option String) :
    Outcome H Unit :=
  if !s.running then ⟨(), s, FOSTER_ASSERT_RUNNING s "FosterSetClipboard"⟩
  else ⟨(), s, [.SDL_SetClipboardText cstr]⟩

/-- The function `FosterGetClipboard`. -/
def FosterGetClipboard {H : FosterHeader} (host : Host) (s : FosterState H) :
    Outcome H (Option String) :=
  if !s.running then ⟨none, s, FOSTER_ASSERT_RUNNING s "FosterGetClipboard"⟩
  else
    let s1 : FosterState H := { s with clipboardText := host.SDL_GetClipboardText }
    ⟨s1.clipboardText, s1,
      (if s.clipboardText ≠ none then [.SDL_free s.clipboardText] else [])
      ++ [.SDL_GetClipboardText]⟩

/-- The function `FosterGetRenderer`. -/
def FosterGetRenderer {H : FosterHeader} (s : FosterState H) : Outcome H FosterRenderers :=
  if !s.running then
    ⟨.FOSTER_RENDERER_NONE, s, FOSTER_ASSERT_RUNNING s "FosterGetRenderer"⟩
  else ⟨s.device.renderer, s, []⟩

/-- The function `FosterTextureCreate`. -/
def FosterTextureCreate {H : FosterHeader} (host : Host) (s : FosterState H) (width : Int) (height : Int) (format : Int) :
    Option (Outcome H Ptr) :=
  if !s.running then some ⟨none, s, FOSTER_ASSERT_RUNNING s "FosterTextureCreate"⟩
  else if s.device.textureCreate then
    some ⟨host.device_textureCreate width height format, s, [.device_textureCreate width height format]⟩
  else none

/-- The function `FosterTextureSetData`. -/
def FosterTextureSetData {H : FosterHeader} (s : FosterState H) (texture : Ptr) (data : Ptr) (length : Int) :
    Option (Outcome H Unit) :=
  if !s.running then some ⟨(), s, FOSTER_ASSERT_RUNNING s "FosterTextureSetData"⟩
  else if s.device.textureSetData then some ⟨(), s, [.device_textureSetData texture data length]⟩
  else none

/-- The function `FosterTextureGetData`. -/
def FosterTextureGetData {H : FosterHeader} (s : FosterState H) (texture : Ptr) (data : Ptr) (length : Int) :
    Option (Outcome H Unit) :=
  if !s.running then some ⟨(), s, FOSTER_ASSERT_RUNNING s "FosterTextureGetData"⟩
  else if s.device.textureGetData then some ⟨(), s, [.device_textureGetData texture data length]⟩
  else none

/-- The function `FosterTextureDestroy`. -/
def FosterTextureDestroy {H : FosterHeader} (s : FosterState H) (texture : Ptr) :
    Option (Outcome H Unit) :=
  if !s.running then some ⟨(), s, FOSTER_ASSERT_RUNNING s "FosterTextureDestroy"⟩
  else if s.device.textureDestroy then some ⟨(), s, [.device_textureDestroy texture]⟩
  else none

/-- The function `FosterTargetCreate`. -/
def FosterTargetCreate {H : FosterHeader} (host : Host) (s : FosterState H) (width : Int) (height : Int) (attachments : Ptr) (attachmentCount : Int) :
    Option (Outcome H Ptr) :=
  if !s.running then some ⟨none, s, FOSTER_ASSERT_RUNNING s "FosterTargetCreate"⟩
  else if s.device.targetCreate then
    some ⟨host.device_targetCreate width height attachments attachmentCount, s, [.device_targetCreate width height attachments attachmentCount]⟩
  else none

/-- The function `FosterTargetGetAttachment`. -/
def FosterTargetGetAttachment {H : FosterHeader} (host : Host) (s : FosterState H)
    (target : Ptr) (index : Int) : Option (Outcome H Ptr) :=
  if !s.running then some ⟨none, s, FOSTER_ASSERT_RUNNING s "FosterTargetGetAttachment"⟩
  else if index < 0 ∨ index ≥ H.FOSTER_MAX_TARGET_ATTACHMENTS then some ⟨none, s, []⟩
  else if s.device.targetGetAttachment then
    some ⟨host.device_targetGetAttachment target index, s,
      [.device_targetGetAttachment target index]⟩
  else none

/-- The function `FosterTargetDestroy`. -/
def FosterTargetDestroy {H : FosterHeader} (s : FosterState H) (target : Ptr) :
    Option (Outcome H Unit) :=
  if !s.running then some ⟨(), s, FOSTER_ASSERT_RUNNING s "FosterTargetDestroy"⟩
  else if s.device.targetDestroy then some ⟨(), s, [.device_targetDestroy target]⟩
  else none

/-- The function `FosterShaderCreate`. -/
def FosterShaderCreate {H : FosterHeader} (host : Host) (s : FosterState H) (data : Ptr) :
    Option (Outcome H Ptr) :=
  if !s.running then some ⟨none, s, FOSTER_ASSERT_RUNNING s "FosterShaderCreate"⟩
  else if s.device.shaderCreate then
    some ⟨host.device_shaderCreate data, s, [.device_shaderCreate data]⟩
  else none

/-- The function `FosterShaderGetUniforms`. -/
def FosterShaderGetUniforms {H : FosterHeader} (s : FosterState H) (shader : Ptr) (output : Ptr) (count : Ptr) (max : Int) :
    Option (Outcome H Unit) :=
  if !s.running then some ⟨(), s, FOSTER_ASSERT_RUNNING s "FosterShaderGetUniforms"⟩
  else if s.device.shaderGetUniforms then some ⟨(), s, [.device_shaderGetUniforms shader output count max]⟩
  else none

/-- The function `FosterShaderSetUniform`. -/
def FosterShaderSetUniform {H : FosterHeader} (s : FosterState H) (shader : Ptr) (index : Int) (values : Ptr) :
    Option (Outcome H Unit) :=
  if !s.running then some ⟨(), s, FOSTER_ASSERT_RUNNING s "FosterShaderSetUniform"⟩
  else if s.device.shaderSetUniform then some ⟨(), s, [.device_shaderSetUniform shader index values]⟩
  else none

/-- The function `FosterShaderSetTexture`. -/
def FosterShaderSetTexture {H : FosterHeader} (s : FosterState H) (shader : Ptr) (index : Int) (values : Ptr) :
    Option (Outcome H Unit) :=
  if !s.running then some ⟨(), s, FOSTER_ASSERT_RUNNING s "FosterShaderSetTexture"⟩
  else if s.device.shaderSetTexture then some ⟨(), s, [.device_shaderSetTexture shader index values]⟩
  else none

/-- The function `FosterShaderSetSampler`. -/
def FosterShaderSetSampler {H : FosterHeader} (s : FosterState H) (shader : Ptr) (index : Int) (values : Ptr) :
    Option (Outcome H Unit) :=
  if !s.running then some ⟨(), s, FOSTER_ASSERT_RUNNING s "FosterShaderSetSampler"⟩
  else if s.device.shaderSetSampler then some ⟨(), s, [.device_shaderSetSampler shader index values]⟩
  else none

/-- The function `FosterShaderDestroy`. -/
def FosterShaderDestroy {H : FosterHeader} (s : FosterState H) (shader : Ptr) :
    Option (Outcome H Unit) :=
  if !s.running then some ⟨(), s, FOSTER_ASSERT_RUNNING s "FosterShaderDestroy"⟩
  else if s.device.shaderDestroy then some ⟨(), s, [.device_shaderDestroy shader]⟩
  else none

/-- The function `FosterMeshCreate`. -/
def FosterMeshCreate {H : FosterHeader} (host : Host) (s : FosterState H) :
    Option (Outcome H Ptr) :=
  if !s.running then some ⟨none, s, FOSTER_ASSERT_RUNNING s "FosterMeshCreate"⟩
  else if s.device.meshCreate then
    some ⟨host.device_meshCreate, s, [.device_meshCreate]⟩
  else none

/-- The function `FosterMeshSetVertexFormat`. -/
def FosterMeshSetVertexFormat {H : FosterHeader} (s : FosterState H) (mesh : Ptr) (format : Ptr) :
    Option (Outcome H Unit) :=
  if !s.running then some ⟨(), s, FOSTER_ASSERT_RUNNING s "FosterMeshSetVertexFormat"⟩
  else if s.device.meshSetVertexFormat then some ⟨(), s, [.device_meshSetVertexFormat mesh format]⟩
  else none

/-- The function `FosterMeshSetVertexData`. -/
def FosterMeshSetVertexData {H : FosterHeader} (s : FosterState H) (mesh : Ptr) (data : Ptr) (dataSize : Int) :
    Option (Outcome H Unit) :=
  if !s.running then some ⟨(), s, FOSTER_ASSERT_RUNNING s "FosterMeshSetVertexData"⟩
  else if s.device.meshSetVertexData then some ⟨(), s, [.device_meshSetVertexData mesh data dataSize]⟩
  else none

/-- The function `FosterMeshSetIndexFormat`. -/
def FosterMeshSetIndexFormat {H : FosterHeader} (s : FosterState H) (mesh : Ptr) (format : Int) :
    Option (Outcome H Unit) :=
  if !s.running then some ⟨(), s, FOSTER_ASSERT_RUNNING s "FosterMeshSetIndexFormat"⟩
  else if s.device.meshSetIndexFormat then some ⟨(), s, [.device_meshSetIndexFormat mesh format]⟩
  else none

/-- The function `FosterMeshSetIndexData`. -/
def FosterMeshSetIndexData {H : FosterHeader} (s : FosterState H) (mesh : Ptr) (data : Ptr) (dataSize : Int) :
    Option (Outcome H Unit) :=
  if !s.running then some ⟨(), s, FOSTER_ASSERT_RUNNING s "FosterMeshSetIndexData"⟩
  else if s.device.meshSetIndexData then some ⟨(), s, [.device_meshSetIndexData mesh data dataSize]⟩
  else none

/-- The function `FosterMeshDestroy`. -/
def FosterMeshDestroy {H : FosterHeader} (s : FosterState H) (mesh : Ptr) :
    Option (Outcome H Unit) :=
  if !s.running then some ⟨(), s, FOSTER_ASSERT_RUNNING s "FosterMeshDestroy"⟩
  else if s.device.meshDestroy then some ⟨(), s, [.device_meshDestroy mesh]⟩
  else none

/-- The function `FosterDraw`. -/
def FosterDraw {H : FosterHeader} (s : FosterState H) (command : Ptr) :
    Option (Outcome H Unit) :=
  if !s.running then some ⟨(), s, FOSTER_ASSERT_RUNNING s "FosterDraw"⟩
  else if s.device.draw then some ⟨(), s, [.device_draw command]⟩
  else none

/-- The function `FosterClear`. -/
def FosterClear {H : FosterHeader} (s : FosterState H) (clear : Ptr) :
    Option (Outcome H Unit) :=
  if !s.running then some ⟨(), s, FOSTER_ASSERT_RUNNING s "FosterClear"⟩
  else if s.device.clear then some ⟨(), s, [.device_clear clear]⟩
  else none

/-! ## The guarded entry points as one family -/

/-- A call of a guarded entry point (an operation that opens with
`FOSTER_ASSERT_RUNNING` or `FOSTER_ASSERT_RUNNING_RET`) with its arguments. -/
inductive GuardedCall where
  | FosterBeginFrame
  | FosterPollEvents (pending : List SDL_Event)
  | FosterEndFrame
  | FosterSetTitle (title : Option String)
  | FosterSetSize (width height : Int)
  | FosterGetSize
  | FosterGetSizeInPixels
  | FosterSetFlags (flags : Nat)
  | FosterGetUserPath
  | FosterSetClipboard (cstr : Option String)
  | FosterGetClipboard
  | FosterGetRenderer
  | FosterTextureCreate (width height format : Int)
  | FosterTextureSetData (texture data : Ptr) (length : Int)
  | FosterTextureGetData (texture data : Ptr) (length : Int)
  | FosterTextureDestroy (texture : Ptr)
  | FosterTargetCreate (width height : Int) (attachments : Ptr) (attachmentCount : Int)
  | FosterTargetGetAttachment (target : Ptr) (index : Int)
  | FosterTargetDestroy (target : Ptr)
  | FosterShaderCreate (data : Ptr)
  | FosterShaderGetUniforms (shader output count : Ptr) (max : Int)
  | FosterShaderSetUniform (shader : Ptr) (index : Int) (values : Ptr)
  | FosterShaderSetTexture (shader : Ptr) (index : Int) (values : Ptr)
  | FosterShaderSetSampler (shader : Ptr) (index : Int) (values : Ptr)
  | FosterShaderDestroy (shader : Ptr)
  | FosterMeshCreate
  | FosterMeshSetVertexFormat (mesh format : Ptr)
  | FosterMeshSetVertexData (mesh data : Ptr) (dataSize : Int)
  | FosterMeshSetIndexFormat (mesh : Ptr) (format : Int)
  | FosterMeshSetIndexData (mesh data : Ptr) (dataSize : Int)
  | FosterMeshDestroy (mesh : Ptr)
  | FosterDraw (command : Ptr)
  | FosterClear (clear : Ptr)

/-- What a guarded entry point hands back to its caller. -/
inductive FosterRet where
  | void
  | stored (size : Option (Int × Int))
  | text (cstr : Option String)
  | pointer (p : Ptr)
  | renderer (r : FosterRenderers)

/-- Repackage the return value of an outcome. -/
def Outcome.mapRet {H : FosterHeader} {α β : Type} (f : α → β) (r : Outcome H α) :
    Outcome H β :=
  ⟨f r.ret, r.state, r.trace⟩

/-- Run a guarded call: the entry point of that name on the given arguments;
`none` when the entry point calls a `NULL` function pointer. -/
def GuardedCall.run {H : FosterHeader} (host : Host) (s : FosterState H) :
    GuardedCall → Option (Outcome H FosterRet)
  | .FosterBeginFrame => some ((Foster.FosterBeginFrame s).mapRet fun _ => .void)
  | .FosterPollEvents pending =>
    (Foster.FosterPollEvents host s pending).map (Outcome.mapRet fun _ => .void)
  | .FosterEndFrame => some ((Foster.FosterEndFrame s).mapRet fun _ => .void)
  | .FosterSetTitle title => some ((Foster.FosterSetTitle s title).mapRet fun _ => .void)
  | .FosterSetSize width height =>
    some ((Foster.FosterSetSize s width height).mapRet fun _ => .void)
  | .FosterGetSize => some ((Foster.FosterGetSize host s).mapRet .stored)
  | .FosterGetSizeInPixels => some ((Foster.FosterGetSizeInPixels host s).mapRet .stored)
  | .FosterSetFlags flags => some ((Foster.FosterSetFlags s flags).mapRet fun _ => .void)
  | .FosterGetUserPath => some ((Foster.FosterGetUserPath host s).mapRet .text)
  | .FosterSetClipboard cstr =>
    some ((Foster.FosterSetClipboard s cstr).mapRet fun _ => .void)
  | .FosterGetClipboard => some ((Foster.FosterGetClipboard host s).mapRet .text)
  | .FosterGetRenderer => some ((Foster.FosterGetRenderer s).mapRet .renderer)
  | .FosterTextureCreate width height format =>
    (Foster.FosterTextureCreate host s width height format).map (Outcome.mapRet .pointer)
  | .FosterTextureSetData texture data length =>
    (Foster.FosterTextureSetData s texture data length).map (Outcome.mapRet fun _ => .void)
  | .FosterTextureGetData texture data length =>
    (Foster.FosterTextureGetData s texture data length).map (Outcome.mapRet fun _ => .void)
  | .FosterTextureDestroy texture =>
    (Foster.FosterTextureDestroy s texture).map (Outcome.mapRet fun _ => .void)
  | .FosterTargetCreate width height attachments attachmentCount =>
    (Foster.FosterTargetCreate host s width height attachments attachmentCount).map
      (Outcome.mapRet .pointer)
  | .FosterTargetGetAttachment target index =>
    (Foster.FosterTargetGetAttachment host s target index).map (Outcome.mapRet .pointer)
  | .FosterTargetDestroy target =>
    (Foster.FosterTargetDestroy s target).map (Outcome.mapRet fun _ => .void)
  | .FosterShaderCreate data =>
    (Foster.FosterShaderCreate host s data).map (Outcome.mapRet .pointer)
  | .FosterShaderGetUniforms shader output count max =>
    (Foster.FosterShaderGetUniforms s shader output count max).map
      (Outcome.mapRet fun _ => .void)
  | .FosterShaderSetUniform shader index values =>
    (Foster.FosterShaderSetUniform s shader index values).map (Outcome.mapRet fun _ => .void)
  | .FosterShaderSetTexture shader index values =>
    (Foster.FosterShaderSetTexture s shader index values).map (Outcome.mapRet fun _ => .void)
  | .FosterShaderSetSampler shader index values =>
    (Foster.FosterShaderSetSampler s shader index values).map (Outcome.mapRet fun _ => .void)
  | .FosterShaderDestroy shader =>
    (Foster.FosterShaderDestroy s shader).map (Outcome.mapRet fun _ => .void)
  | .FosterMeshCreate => (Foster.FosterMeshCreate host s).map (Outcome.mapRet .pointer)
  | .FosterMeshSetVertexFormat mesh format =>
    (Foster.FosterMeshSetVertexFormat s mesh format).map (Outcome.mapRet fun _ => .void)
  | .FosterMeshSetVertexData mesh data dataSize =>
    (Foster.FosterMeshSetVertexData s mesh data dataSize).map (Outcome.mapRet fun _ => .void)
  | .FosterMeshSetIndexFormat mesh format =>
    (Foster.FosterMeshSetIndexFormat s mesh format).map (Outcome.mapRet fun _ => .void)
  | .FosterMeshSetIndexData mesh data dataSize =>
    (Foster.FosterMeshSetIndexData s mesh data dataSize).map (Outcome.mapRet fun _ => .void)
  | .FosterMeshDestroy mesh =>
    (Foster.FosterMeshDestroy s mesh).map (Outcome.mapRet fun _ => .void)
  | .FosterDraw command => (Foster.FosterDraw s command).map (Outcome.mapRet fun _ => .void)
  | .FosterClear clear => (Foster.FosterClear s clear).map (Outcome.mapRet fun _ => .void)

/-- The safe default of a guarded call as the specification words it: `NULL`
for pointer results, `FOSTER_RENDERER_NONE` for `FosterGetRenderer`, a plain
return (nothing stored through out-parameters) for `void` operations. -/
def GuardedCall.safeDefault : GuardedCall → FosterRet
  | .FosterGetUserPath => .text none
  | .FosterGetClipboard => .text none
  | .FosterGetRenderer => .renderer .FOSTER_RENDERER_NONE
  | .FosterTextureCreate _ _ _ => .pointer none
  | .FosterTargetCreate _ _ _ _ => .pointer none
  | .FosterTargetGetAttachment _ _ => .pointer none
  | .FosterShaderCreate _ => .pointer none
  | .FosterMeshCreate => .pointer none
  | .FosterGetSize => .stored none
  | .FosterGetSizeInPixels => .stored none
  | _ => .void

/-- Whether an effect is a call of the error-log callback. -/
def Effect.isErrorLog : Effect → Bool
  | .onLogError _ _ => true
  | _ => false

/-- The steps of `FosterStartup` as the specification lists them, all
succeeding: positive width and height, host init returning `0`, the renderer
device resolved, the window created, and the backend initialize hook absent or
returning true. -/
def StartupStepsSucceed {H : FosterHeader} (host : Host) (s : FosterState H)
    (desc : FosterDesc) : Prop :=
  let got := host.FosterGetDevice desc.renderer
    { s.device with renderer := .FOSTER_RENDERER_NONE }
  let title := desc.windowTitle.getD "Foster Application"
  desc.width > 0 ∧ desc.height > 0 ∧
  host.SDL_Init sdl_init_flags = 0 ∧
  got.1 = true ∧
  host.SDL_CreateWindow title desc.width desc.height
    [.SDL_WINDOW_ALLOW_HIGHDPI, .SDL_WINDOW_HIDDEN] ≠ none ∧
  (got.2.initializeHook = false ∨ host.device_initializeHook = true)

/-- The first free slot of a table as the specification means it: the
lowest-numbered entry that holds no device, if there is one. -/
def firstFreeSlot {n : Nat} (table : Fin n → Ptr) : Option (Fin n) :=
  (List.finRange n).find? fun i => table i == none

/-- The statement of the specification for a joystick-added event with device
index `which` in state `s`: when the device is not a gamepad and a free joystick
slot exists, the event is processed, the opened device is stored at the first
free slot and the connect callback is invoked with that slot index. -/
def JoystickAddedUsesFirstFreeSlot {H : FosterHeader} (host : Host) (s : FosterState H)
    (which : Int) : Prop :=
  host.SDL_IsGameController which = false →
  ∀ i, firstFreeSlot s.joysticks = some i →
    ∃ s1 t, FosterPollEvents_event host s (.SDL_JOYDEVICEADDED which) = some (s1, t) ∧
      s1.joysticks i = host.SDL_JoystickOpen which ∧
      ∃ name arg3 arg4 arg5 vendor product version,
        Effect.onControllerConnect (i : Nat) name arg3 arg4 arg5 vendor product version ∈ t

/-- The name of the operation that a guarded call invokes: the name of the C
function the caller called. -/
def GuardedCall.name : GuardedCall → String
  | .FosterBeginFrame => "FosterBeginFrame"
  | .FosterPollEvents _ => "FosterPollEvents"
  | .FosterEndFrame => "FosterEndFrame"
  | .FosterSetTitle _ => "FosterSetTitle"
  | .FosterSetSize _ _ => "FosterSetSize"
  | .FosterGetSize => "FosterGetSize"
  | .FosterGetSizeInPixels => "FosterGetSizeInPixels"
  | .FosterSetFlags _ => "FosterSetFlags"
  | .FosterGetUserPath => "FosterGetUserPath"
  | .FosterSetClipboard _ => "FosterSetClipboard"
  | .FosterGetClipboard => "FosterGetClipboard"
  | .FosterGetRenderer => "FosterGetRenderer"
  | .FosterTextureCreate _ _ _ => "FosterTextureCreate"
  | .FosterTextureSetData _ _ _ => "FosterTextureSetData"
  | .FosterTextureGetData _ _ _ => "FosterTextureGetData"
  | .FosterTextureDestroy _ => "FosterTextureDestroy"
  | .FosterTargetCreate _ _ _ _ => "FosterTargetCreate"
  | .FosterTargetGetAttachment _ _ => "FosterTargetGetAttachment"
  | .FosterTargetDestroy _ => "FosterTargetDestroy"
  | .FosterShaderCreate _ => "FosterShaderCreate"
  | .FosterShaderGetUniforms _ _ _ _ => "FosterShaderGetUniforms"
  | .FosterShaderSetUniform _ _ _ => "FosterShaderSetUniform"
  | .FosterShaderSetTexture _ _ _ => "FosterShaderSetTexture"
  | .FosterShaderSetSampler _ _ _ => "FosterShaderSetSampler"
  | .FosterShaderDestroy _ => "FosterShaderDestroy"
  | .FosterMeshCreate => "FosterMeshCreate"
  | .FosterMeshSetVertexFormat _ _ => "FosterMeshSetVertexFormat"
  | .FosterMeshSetVertexData _ _ _ => "FosterMeshSetVertexData"
  | .FosterMeshSetIndexFormat _ _ => "FosterMeshSetIndexFormat"
  | .FosterMeshSetIndexData _ _ _ => "FosterMeshSetIndexData"
  | .FosterMeshDestroy _ => "FosterMeshDestroy"
  | .FosterDraw _ => "FosterDraw"
  | .FosterClear _ => "FosterClear"

/-- The error log entry the specification expects of a guarded call made while
not running: one call of the error-log callback whose message is printed from
the macro's format with the name of the operation that was called. -/
def GuardedCall.expectedLog (c : GuardedCall) : List Effect :=
  [.onLogError "Failed '%s', Foster is not running" [.str c.name]]

/-- Successive calls of `FosterPollEvents`, one per frame: each frame brings the
host answers of its time and the events pending then.  The result is the state
after the last frame, or `none` when a frame faults. -/
def FosterPollEvents_frames {H : FosterHeader} :
    FosterState H → List (Host × List SDL_Event) → Option (FosterState H)
  | s, [] => some s
  | s, frame :: later =>
    match FosterPollEvents frame.1 s frame.2 with
    | none => none
    | some r => FosterPollEvents_frames r.state later

/-- The statement of the specification's slot-reuse invariant for one run: a
successful startup, then the given frames, then a joystick-added event with
device index `which`.  If that event stores a new device into a slot that holds
device `d`, then one of the frames processed a joystick-removed event carrying
the instance id of `d`. -/
def SlotReuseOnlyAfterDisconnect {H : FosterHeader} (host0 : Host) (s0 : FosterState H)
    (desc : FosterDesc) (frames : List (Host × List SDL_Event)) (host : Host)
    (which : Int) : Prop :=
  s0.running = false →
  (FosterStartup host0 s0 desc).state.running = true →
  ∀ s1, FosterPollEvents_frames (FosterStartup host0 s0 desc).state frames = some s1 →
  ∀ s2 t, FosterPollEvents_event host s1 (.SDL_JOYDEVICEADDED which) = some (s2, t) →
  ∀ d, readSlot s1.joysticks which = some d → readSlot s2.joysticks which ≠ some d →
    ∃ frame ∈ frames,
      SDL_Event.SDL_JOYDEVICEREMOVED (frame.1.SDL_JoystickInstanceID (some d)) ∈ frame.2

/-- Slot `i` of a joystick table is occupied by a device whose instance id is
`instanceID`. -/
abbrev joystickSlotMatches {n : Nat} (host : Host) (joysticks : Fin n → Ptr)
    (instanceID : Int) (i : Fin n) : Prop :=
  joysticks i ≠ none ∧ host.SDL_JoystickInstanceID (joysticks i) = instanceID

/-- Slot `i` of a gamepad table is occupied by a device whose instance id (the
instance id of the joystick underlying the gamepad) is `instanceID`. -/
abbrev gamepadSlotMatches {n : Nat} (host : Host) (gamepads : Fin n → Ptr)
    (instanceID : Int) (i : Fin n) : Prop :=
  gamepads i ≠ none ∧
    host.SDL_JoystickInstanceID (host.SDL_GameControllerGetJoystick (gamepads i)) = instanceID

/-- What the specification asks of a slot lookup with result `r` for the
occupancy test `matched`: `r` is `-1` and no slot matches, or `r` is the
smallest index of a matching slot. -/
def IsFirstMatch {n : Nat} (matched : Fin n → Prop) (r : Int) : Prop :=
  (r = -1 ∧ ∀ i : Fin n, ¬ matched i) ∨
    ∃ i : Fin n, r = ((i : Nat) : Int) ∧ matched i ∧ ∀ j : Fin n, j < i → ¬ matched j

/-! ## Concrete inputs used to exercise the theorems -/

/-- Header constants of an example build: four controller slots. -/
def exampleHeader : FosterHeader :=
  { FOSTER_MAX_CONTROLLERS := 4, FOSTER_MAX_TARGET_ATTACHMENTS := 4,
    FOSTER_FLAG_FULLSCREEN := 4, FOSTER_FLAG_RESIZABLE := 1, FOSTER_FLAG_VSYNC := 2 }

/-- An application description with every callback registered. -/
def exampleDesc : FosterDesc :=
  { windowTitle := some "demo", applicationName := some "demo", width := 800, height := 600,
    renderer := .FOSTER_RENDERER_OPENGL, flags := 0, logging := .FOSTER_LOGGING_ALL,
    onLogInfo := true, onLogWarn := true, onLogError := true, onExitRequest := true,
    onMouseButton := true, onMouseWheel := true, onKey := true, onText := true,
    onControllerConnect := true, onControllerDisconnect := true,
    onControllerButton := true, onControllerAxis := true }

/-- A backend record with every hook present. -/
def exampleDevice : FosterDevice :=
  { renderer := .FOSTER_RENDERER_OPENGL, prepare := true, initializeHook := true,
    shutdown := true, frameBegin := true, frameEnd := true, textureCreate := true,
    textureSetData := true, textureGetData := true, textureDestroy := true,
    targetCreate := true, targetGetAttachment := true, targetDestroy := true,
    shaderCreate := true, shaderGetUniforms := true, shaderSetUniform := true,
    shaderSetTexture := true, shaderSetSampler := true, shaderDestroy := true,
    meshCreate := true, meshSetVertexFormat := true, meshSetVertexData := true,
    meshSetIndexFormat := true, meshSetIndexData := true, meshDestroy := true,
    draw := true, clear := true }

/-- A cooperative host: every call succeeds, no device is a gamepad, the
joystick opened for device index `i` is handle `100 + i` with instance id
`100 + i`. -/
def exampleHost : Host :=
  { SDL_GetVersion := (2, 28, 0), SDL_GetError := "", SDL_Init := fun _ => 0,
    SDL_CreateWindow := fun _ _ _ _ => some 1,
    SDL_GetWindowSize := fun _ => (800, 600),
    SDL_GetWindowSizeInPixels := fun _ => (800, 600),
    SDL_GetPrefPath := fun _ _ => some "/home/demo/",
    SDL_GetClipboardText := some "",
    SDL_IsGameController := fun _ => false,
    SDL_JoystickOpen := fun i => some (100 + i.toNat),
    SDL_JoystickName := fun _ => some "stick",
    SDL_JoystickNumButtons := fun _ => 8,
    SDL_JoystickNumAxes := fun _ => 2,
    SDL_JoystickGetVendor := fun _ => 1,
    SDL_JoystickGetProduct := fun _ => 2,
    SDL_JoystickGetProductVersion := fun _ => 3,
    SDL_JoystickInstanceID := fun p => match p with
      | some a => (a : Int)
      | none => -1,
    SDL_GameControllerOpen := fun i => some (200 + i.toNat),
    SDL_GameControllerName := fun _ => some "pad",
    SDL_GameControllerGetVendor := fun _ => 1,
    SDL_GameControllerGetProduct := fun _ => 2,
    SDL_GameControllerGetProductVersion := fun _ => 3,
    SDL_GameControllerGetJoystick := fun p => p,
    FosterGetDevice := fun _ _ => (true, exampleDevice),
    device_initializeHook := true,
    device_textureCreate := fun _ _ _ => some 1,
    device_targetCreate := fun _ _ _ _ => some 2,
    device_targetGetAttachment := fun _ _ => some 3,
    device_shaderCreate := fun _ => some 4,
    device_meshCreate := some 5 }

/-- The zero-initialised runtime state of a process that has not started the
runtime, with the example description already in place. -/
def stoppedState : FosterState exampleHeader :=
  { running := false, desc := exampleDesc, flags := 0, window := none,
    windowCreateFlags := [], device := exampleDevice, clipboardText := none,
    userPath := none, joysticks := fun _ => none, gamepads := fun _ => none }

/-- A running state with an open window and both slot tables empty. -/
def runningState : FosterState exampleHeader :=
  { stoppedState with running := true, window := some 1 }

/-- The example host at a later time: the joystick opened for device index `i`
is now handle `300 + i`. -/
def laterHost : Host :=
  { exampleHost with SDL_JoystickOpen := fun i => some (300 + i.toNat) }

/-- Two frames of a session: two raw joysticks are plugged in (device indices
`0` and `1`, handles `100` and `101`), then the first one is unplugged. -/
def exampleFrames : List (Host × List SDL_Event) :=
  [(exampleHost, [.SDL_JOYDEVICEADDED 0, .SDL_JOYDEVICEADDED 1]),
   (exampleHost, [.SDL_JOYDEVICEREMOVED 100])]

/-- The example runtime after its startup and the two example frames: slot `0`
holds the closed handle `100`, slot `1` the connected joystick `101`. -/
def sessionState : FosterState exampleHeader :=
  { runningState with
      windowCreateFlags := [.SDL_WINDOW_ALLOW_HIGHDPI, .SDL_WINDOW_HIDDEN],
      joysticks := writeSlot (writeSlot (fun _ => none) 0 (some 100)) 1 (some 101) }

/-! ## Theorems -/

/-- The error log of a state lists nothing but calls of the error-log
callback, and at most one of them. -/
theorem FosterLogError_shape {H : FosterHeader} (s : FosterState H) (fmt : String)
    (args : List LogArg) :
    (FosterLogError s fmt args).length ≤ 1 ∧
      ∀ e ∈ FosterLogError s fmt args, e.isErrorLog = true := by
  unfold FosterLogError
  split_ifs <;> simp [Effect.isErrorLog]

/-- C1: every guarded entry point called in a state with `running == false`
returns its safe default, leaves the runtime state as it was, and performs no
effect other than (at most one) call of the error-log callback: no SDL call, no
backend hook and no input callback. -/
theorem guarded_call_not_running {H : FosterHeader} (host : Host) (s : FosterState H)
    (c : GuardedCall) (h : s.running = false) :
    ∃ t, c.run host s = some ⟨c.safeDefault, s, t⟩ ∧ t.length ≤ 1 ∧
      ∀ e ∈ t, e.isErrorLog = true := by
  cases c <;>
    simp only [GuardedCall.run, GuardedCall.safeDefault, Outcome.mapRet,
      Foster.FosterBeginFrame, Foster.FosterPollEvents, Foster.FosterEndFrame,
      Foster.FosterSetTitle, Foster.FosterSetSize, Foster.FosterGetSize,
      Foster.FosterGetSizeInPixels, Foster.FosterSetFlags, Foster.FosterGetUserPath,
      Foster.FosterSetClipboard, Foster.FosterGetClipboard, Foster.FosterGetRenderer,
      Foster.FosterTextureCreate, Foster.FosterTextureSetData, Foster.FosterTextureGetData,
      Foster.FosterTextureDestroy, Foster.FosterTargetCreate,
      Foster.FosterTargetGetAttachment, Foster.FosterTargetDestroy,
      Foster.FosterShaderCreate, Foster.FosterShaderGetUniforms,
      Foster.FosterShaderSetUniform, Foster.FosterShaderSetTexture,
      Foster.FosterShaderSetSampler, Foster.FosterShaderDestroy, Foster.FosterMeshCreate,
      Foster.FosterMeshSetVertexFormat, Foster.FosterMeshSetVertexData,
      Foster.FosterMeshSetIndexFormat, Foster.FosterMeshSetIndexData,
      Foster.FosterMeshDestroy, Foster.FosterDraw, Foster.FosterClear,
      FOSTER_ASSERT_RUNNING, h, Bool.not_false, if_true, Option.map_some'] <;>
    exact ⟨_, rfl, FosterLogError_shape s _ _⟩

/-- Witness of C1: `FosterGetClipboard` on the stopped example state. -/
theorem guarded_call_not_running_witness :
    stoppedState.running = false ∧
      ∃ t, GuardedCall.FosterGetClipboard.run exampleHost stoppedState
          = some ⟨GuardedCall.FosterGetClipboard.safeDefault, stoppedState, t⟩ ∧
        t.length ≤ 1 ∧ ∀ e ∈ t, e.isErrorLog = true :=
  ⟨rfl, guarded_call_not_running exampleHost stoppedState .FosterGetClipboard rfl⟩

/-- C2: for every signed 16-bit axis reading the normalised value of the axis
branches lies in `[-1, 1]`; it is `1` at `32767`, `-1` at `-32768`, `0` at `0`. -/
theorem axis_value_range (v : Int) (hlo : -32768 ≤ v) (hhi : v ≤ 32767) :
    (-1 ≤ axis_value v ∧ axis_value v ≤ 1) ∧
      axis_value 32767 = 1 ∧ axis_value (-32768) = -1 ∧ axis_value 0 = 0 := by
  have hlo' : (-32768 : ℚ) ≤ (v : ℚ) := by exact_mod_cast hlo
  have hhi' : (v : ℚ) ≤ 32767 := by exact_mod_cast hhi
  refine ⟨?_, ?_, ?_, ?_⟩
  · unfold axis_value
    split_ifs with hv
    · have hv' : (0 : ℚ) ≤ (v : ℚ) := by exact_mod_cast hv
      constructor
      · rw [le_div_iff₀ (by norm_num)]; linarith
      · rw [div_le_iff₀ (by norm_num)]; linarith
    · have hv' : (v : ℚ) < 0 := by
        have : v < 0 := by omega
        exact_mod_cast this
      constructor
      · rw [le_div_iff₀ (by norm_num)]; linarith
      · rw [div_le_iff₀ (by norm_num)]; linarith
  · norm_num [axis_value]
  · norm_num [axis_value]
  · norm_num [axis_value]

/-- Witness of C2: the reading `-12345`. -/
theorem axis_value_range_witness :
    (-32768 : Int) ≤ -12345 ∧ (-12345 : Int) ≤ 32767 ∧
      ((-1 ≤ axis_value (-12345) ∧ axis_value (-12345) ≤ 1) ∧
        axis_value 32767 = 1 ∧ axis_value (-32768) = -1 ∧ axis_value 0 = 0) :=
  ⟨by decide, by decide, axis_value_range (-12345) (by decide) (by decide)⟩

/-- C3: `FosterShutdown` is idempotent.  A second call right after the first
leaves the state of the first and adds no effect to its backend-shutdown, free
and window-destroy effects; on a state that is not running the call changes
nothing and performs no effect. -/
theorem FosterShutdown_idempotent {H : FosterHeader} (s : FosterState H) :
    (FosterShutdown (FosterShutdown s).state).state = (FosterShutdown s).state ∧
      (FosterShutdown s).trace ++ (FosterShutdown (FosterShutdown s).state).trace
        = (FosterShutdown s).trace ∧
      (FosterShutdown { s with running := false }).state = { s with running := false } ∧
      (FosterShutdown { s with running := false }).trace = [] := by
  refine ⟨?_, ?_, ?_, ?_⟩ <;>
    · unfold FosterShutdown
      cases hr : s.running <;> simp [hr]

/-- After `FosterStartup` from a state that is not running, `running` is true
exactly when every step succeeded. -/
theorem FosterStartup_running_key {H : FosterHeader} (host : Host) (s : FosterState H)
    (desc : FosterDesc) (h : s.running = false) :
    (FosterStartup host s desc).state.running = true ↔ StartupStepsSucceed host s desc := by
  unfold FosterStartup StartupStepsSucceed
  simp only [h, Bool.false_eq_true, if_false]
  generalize ({ s.device with renderer := .FOSTER_RENDERER_NONE } : FosterDevice) = dev0
  generalize host.FosterGetDevice desc.renderer dev0 = got
  generalize host.SDL_CreateWindow (desc.windowTitle.getD "Foster Application")
    desc.width desc.height [.SDL_WINDOW_ALLOW_HIGHDPI, .SDL_WINDOW_HIDDEN] = win
  obtain ⟨ok, dev⟩ := got
  by_cases hw : desc.width ≤ 0 ∨ desc.height ≤ 0
  · rw [if_pos hw]
    constructor
    · intro hf; cases hf
    · rintro ⟨h1, h2, -⟩; omega
  · rw [if_neg hw]
    have hw1 : desc.width > 0 ∧ desc.height > 0 := by omega
    by_cases hi : host.SDL_Init sdl_init_flags ≠ 0
    · rw [if_pos hi]
      constructor
      · intro hf; cases hf
      · rintro ⟨-, -, h3, -⟩; exact absurd h3 hi
    · rw [if_neg hi]
      have hi0 : host.SDL_Init sdl_init_flags = 0 := not_not.mp hi
      cases ok
      · simp
      · cases win with
        | none => simp
        | some w =>
          cases hh : dev.initializeHook <;> cases hr : host.device_initializeHook <;>
            simp [FosterSetFlags, hw1, hi0, hh, hr, apply_ite Outcome.state,
              apply_ite FosterState.running]

/-- C4: a `FosterStartup` from a state that is not running returns with
`running` true exactly when every step succeeded, and with `running` false on
every failure path; after a successful startup `FosterIsRunning` is true, and
after a following `FosterShutdown` it is false. -/
theorem FosterStartup_running_iff {H : FosterHeader} (host : Host) (s : FosterState H)
    (desc : FosterDesc) (h : s.running = false) :
    ((FosterStartup host s desc).state.running = true ↔ StartupStepsSucceed host s desc) ∧
      (¬ StartupStepsSucceed host s desc →
        (FosterStartup host s desc).state.running = false) ∧
      (StartupStepsSucceed host s desc →
        FosterIsRunning (FosterStartup host s desc).state = true ∧
        FosterIsRunning (FosterShutdown (FosterStartup host s desc).state).state = false) := by
  have key := FosterStartup_running_key host s desc h
  refine ⟨key, ?_, ?_⟩
  · intro hn
    cases hr : (FosterStartup host s desc).state.running
    · rfl
    · exact absurd (key.mp hr) hn
  · intro hs
    have hr := key.mpr hs
    refine ⟨hr, ?_⟩
    simp [FosterIsRunning, FosterShutdown, hr]

/-- C5: in a running state, after one `FosterSetFlags(f)` the stored flags are
`f`, and a second `FosterSetFlags(f)` right after it performs no host call at
all and leaves the state unchanged. -/
theorem FosterSetFlags_twice {H : FosterHeader} (s : FosterState H) (f : Nat)
    (h : s.running = true) :
    (FosterSetFlags s f).state.flags = f ∧
      (FosterSetFlags (FosterSetFlags s f).state f).trace = [] ∧
      (FosterSetFlags (FosterSetFlags s f).state f).state = (FosterSetFlags s f).state := by
  unfold FosterSetFlags
  by_cases hf : f = s.flags <;> simp [h, hf]

/-- Witness of C4: startup of the example description on a cooperative host. -/
theorem FosterStartup_running_iff_witness :
    stoppedState.running = false ∧
      (((FosterStartup exampleHost stoppedState exampleDesc).state.running = true ↔
          StartupStepsSucceed exampleHost stoppedState exampleDesc) ∧
        (¬ StartupStepsSucceed exampleHost stoppedState exampleDesc →
          (FosterStartup exampleHost stoppedState exampleDesc).state.running = false) ∧
        (StartupStepsSucceed exampleHost stoppedState exampleDesc →
          FosterIsRunning (FosterStartup exampleHost stoppedState exampleDesc).state = true ∧
          FosterIsRunning
            (FosterShutdown (FosterStartup exampleHost stoppedState exampleDesc).state).state
              = false)) :=
  ⟨rfl, FosterStartup_running_iff exampleHost stoppedState exampleDesc rfl⟩

/-- Witness of C5: the flag set `3` on the running example state. -/
theorem FosterSetFlags_twice_witness :
    runningState.running = true ∧
      ((FosterSetFlags runningState 3).state.flags = 3 ∧
        (FosterSetFlags (FosterSetFlags runningState 3).state 3).trace = [] ∧
        (FosterSetFlags (FosterSetFlags runningState 3).state 3).state
          = (FosterSetFlags runningState 3).state) :=
  ⟨rfl, FosterSetFlags_twice runningState 3 rfl⟩

/-- The startup scenario of the specification on the example inputs: the steps
succeed, so the runtime is running afterwards and stopped after shutdown. -/
theorem FosterStartup_example :
    StartupStepsSucceed exampleHost stoppedState exampleDesc ∧
      (FosterStartup exampleHost stoppedState exampleDesc).state.running = true := by
  have hs : StartupStepsSucceed exampleHost stoppedState exampleDesc := by
    simp [StartupStepsSucceed, exampleHost, exampleDesc, exampleDevice]
  exact ⟨hs, (FosterStartup_running_key exampleHost stoppedState exampleDesc rfl).mpr hs⟩

/-- Inside the table, a slot just written reads back the value written. -/
theorem readSlot_writeSlot {n : Nat} (table : Fin n → Ptr) (index : Int) (value : Ptr)
    (h0 : 0 ≤ index) (h1 : index < (n : Int)) :
    readSlot (writeSlot table index value) index = value := by
  unfold readSlot writeSlot
  rw [dif_pos ⟨h0, h1⟩]
  simp [Int.toNat_of_nonneg h0]

/-- Counterexample to C6 as stated: with both tables empty, a raw joystick
announced with device index `2` is stored at slot `2` and reported with index
`2`, while the first free joystick slot is slot `0`, which stays empty. -/
theorem joystick_added_first_free_counterexample :
    exampleHost.SDL_IsGameController 2 = false ∧
      firstFreeSlot runningState.joysticks = some ⟨0, by decide⟩ ∧
      (∃ s1, FosterPollEvents_event exampleHost runningState (.SDL_JOYDEVICEADDED 2)
          = some (s1, [.SDL_JoystickOpen 2,
              .onControllerConnect 2 (some "stick") 8 0 2 1 2 3]) ∧
        s1.joysticks ⟨0, by decide⟩ = none ∧ s1.joysticks ⟨2, by decide⟩ = some 102) ∧
      ¬ JoystickAddedUsesFirstFreeSlot exampleHost runningState 2 := by
  have hfree : firstFreeSlot runningState.joysticks = some ⟨0, by decide⟩ := by
    rfl
  have hev : FosterPollEvents_event exampleHost runningState (.SDL_JOYDEVICEADDED 2)
      = some ({ runningState with
                  joysticks := writeSlot runningState.joysticks 2 (some 102) },
              [.SDL_JoystickOpen 2, .onControllerConnect 2 (some "stick") 8 0 2 1 2 3]) := by
    simp [FosterPollEvents_event, invoke, exampleHost, runningState, stoppedState,
      exampleDesc, exampleHeader]
  refine ⟨rfl, hfree, ⟨_, hev, ?_, ?_⟩, ?_⟩
  · simp [writeSlot, runningState, stoppedState]
  · simp [writeSlot]
  · intro hc
    obtain ⟨s1, t, he, hslot, -⟩ := hc rfl ⟨0, by decide⟩ hfree
    rw [hev] at he
    have hs : s1 = { runningState with
        joysticks := writeSlot runningState.joysticks 2 (some 102) } := by
      injection he with he
      injection he with he1 he2
      exact he1.symm
    subst hs
    simp [writeSlot, runningState, stoppedState, exampleHost] at hslot

/-- C6, amended: a joystick-added event whose device is not a gamepad and whose
device index lies in `[0, FOSTER_MAX_CONTROLLERS)` opens the device, stores it
at the slot whose number is the device index, keeps every other slot and the
rest of the state, and invokes the (registered) connect callback with the device
index as slot index. -/
theorem joystick_added_uses_device_index {H : FosterHeader} (host : Host)
    (s : FosterState H) (which : Int)
    (hg : host.SDL_IsGameController which = false)
    (h0 : 0 ≤ which) (h1 : which < (H.FOSTER_MAX_CONTROLLERS : Int))
    (hcb : s.desc.onControllerConnect = true) :
    FosterPollEvents_event host s (.SDL_JOYDEVICEADDED which)
        = some ({ s with joysticks := writeSlot s.joysticks which (host.SDL_JoystickOpen which) },
            [.SDL_JoystickOpen which,
             .onControllerConnect which
               (host.SDL_JoystickName (host.SDL_JoystickOpen which))
               (host.SDL_JoystickNumButtons (host.SDL_JoystickOpen which)) 0
               (host.SDL_JoystickNumAxes (host.SDL_JoystickOpen which))
               (host.SDL_JoystickGetVendor (host.SDL_JoystickOpen which))
               (host.SDL_JoystickGetProduct (host.SDL_JoystickOpen which))
               (host.SDL_JoystickGetProductVersion (host.SDL_JoystickOpen which))]) ∧
      readSlot (writeSlot s.joysticks which (host.SDL_JoystickOpen which)) which
        = host.SDL_JoystickOpen which ∧
      ∀ j : Fin H.FOSTER_MAX_CONTROLLERS, ((j : Nat) : Int) ≠ which →
        writeSlot s.joysticks which (host.SDL_JoystickOpen which) j = s.joysticks j := by
  refine ⟨?_, readSlot_writeSlot _ _ _ h0 h1, ?_⟩
  · simp [FosterPollEvents_event, invoke, hg, h0, h1, hcb]
  · intro j hj
    simp [writeSlot, hj]

/-- Witness of C6 amended: device index `2` on the running example state. -/
theorem joystick_added_uses_device_index_witness :
    exampleHost.SDL_IsGameController 2 = false ∧ (0 : Int) ≤ 2 ∧
      (2 : Int) < (exampleHeader.FOSTER_MAX_CONTROLLERS : Int) ∧
      runningState.desc.onControllerConnect = true ∧
      (FosterPollEvents_event exampleHost runningState (.SDL_JOYDEVICEADDED 2)
        = some ({ runningState with
              joysticks := writeSlot runningState.joysticks 2 (exampleHost.SDL_JoystickOpen 2) },
            [.SDL_JoystickOpen 2,
             .onControllerConnect 2
               (exampleHost.SDL_JoystickName (exampleHost.SDL_JoystickOpen 2))
               (exampleHost.SDL_JoystickNumButtons (exampleHost.SDL_JoystickOpen 2)) 0
               (exampleHost.SDL_JoystickNumAxes (exampleHost.SDL_JoystickOpen 2))
               (exampleHost.SDL_JoystickGetVendor (exampleHost.SDL_JoystickOpen 2))
               (exampleHost.SDL_JoystickGetProduct (exampleHost.SDL_JoystickOpen 2))
               (exampleHost.SDL_JoystickGetProductVersion (exampleHost.SDL_JoystickOpen 2))]) ∧
        readSlot (writeSlot runningState.joysticks 2 (exampleHost.SDL_JoystickOpen 2)) 2
          = exampleHost.SDL_JoystickOpen 2 ∧
        ∀ j : Fin exampleHeader.FOSTER_MAX_CONTROLLERS, ((j : Nat) : Int) ≠ 2 →
          writeSlot runningState.joysticks 2 (exampleHost.SDL_JoystickOpen 2) j
            = runningState.joysticks j) :=
  ⟨rfl, by decide, by decide, rfl,
    joystick_added_uses_device_index exampleHost runningState 2 rfl (by decide) (by decide) rfl⟩

/-- In a running state `FosterPollEvents` with one pending event is the loop
body on that event. -/
theorem FosterPollEvents_single {H : FosterHeader} (host : Host) (s : FosterState H)
    (event : SDL_Event) (h : s.running = true) :
    FosterPollEvents host s [event]
      = (FosterPollEvents_event host s event).map fun r => ⟨(), r.1, r.2⟩ := by
  unfold FosterPollEvents
  simp only [h, Bool.not_true, Bool.false_eq_true, if_false, FosterPollEvents_loop]
  cases FosterPollEvents_event host s event with
  | none => rfl
  | some r => simp

/-- C7: a joystick-added or gamepad-added event whose device index is outside
`[0, FOSTER_MAX_CONTROLLERS)` is dropped: no device is opened, no callback is
invoked (no effect at all) and the whole runtime state, both slot tables
included, is unchanged. -/
theorem device_added_out_of_capacity {H : FosterHeader} (host : Host) (s : FosterState H)
    (which : Int) (h : ¬ (0 ≤ which ∧ which < (H.FOSTER_MAX_CONTROLLERS : Int))) :
    FosterPollEvents_event host s (.SDL_JOYDEVICEADDED which) = some (s, []) ∧
      FosterPollEvents_event host s (.SDL_CONTROLLERDEVICEADDED which) = some (s, []) := by
  constructor
  · unfold FosterPollEvents_event
    simp only
    rw [if_neg (fun hc => h ⟨hc.2.1, hc.2.2⟩)]
  · unfold FosterPollEvents_event
    simp only
    rw [if_neg (fun hc => h ⟨hc.1, hc.2⟩)]

/-- Witness of C7: device index `4` with four slots (one more device than
capacity). -/
theorem device_added_out_of_capacity_witness :
    ¬ ((0 : Int) ≤ 4 ∧ (4 : Int) < (exampleHeader.FOSTER_MAX_CONTROLLERS : Int)) ∧
      (FosterPollEvents_event exampleHost runningState (.SDL_JOYDEVICEADDED 4)
          = some (runningState, []) ∧
        FosterPollEvents_event exampleHost runningState (.SDL_CONTROLLERDEVICEADDED 4)
          = some (runningState, [])) :=
  ⟨by decide, device_added_out_of_capacity exampleHost runningState 4 (by decide)⟩

/-- C8: a joystick-added event whose device the host recognises as a gamepad
leaves the raw-joystick branch without any effect: the connect callback is not
invoked and no joystick slot (nor anything else in the state) is written. -/
theorem joystick_added_gamepad_suppressed {H : FosterHeader} (host : Host)
    (s : FosterState H) (which : Int) (h : host.SDL_IsGameController which = true) :
    FosterPollEvents_event host s (.SDL_JOYDEVICEADDED which) = some (s, []) := by
  unfold FosterPollEvents_event
  simp [h]

/-- Witness of C8: a host for which every device is a gamepad. -/
theorem joystick_added_gamepad_suppressed_witness :
    ({ exampleHost with SDL_IsGameController := fun _ => true } : Host).SDL_IsGameController 1
        = true ∧
      FosterPollEvents_event { exampleHost with SDL_IsGameController := fun _ => true }
          runningState (.SDL_JOYDEVICEADDED 1) = some (runningState, []) :=
  ⟨rfl, joystick_added_gamepad_suppressed
    { exampleHost with SDL_IsGameController := fun _ => true } runningState 1 rfl⟩

/-- C9: a key-down or key-up event with a non-zero repeat flag invokes nothing;
with repeat flag zero it invokes the (registered) key callback exactly once,
with `FosterGetKeyFromSDL(scancode)` and a pressed flag that is true exactly for
key-down.  The state is unchanged either way. -/
theorem key_event_callback {H : FosterHeader} (host : Host) (s : FosterState H)
    (scancode : SDL_Scancode) (repeat_ : Nat) (hcb : s.desc.onKey = true) :
    (repeat_ ≠ 0 →
        FosterPollEvents_event host s (.SDL_KEYDOWN scancode repeat_) = some (s, []) ∧
        FosterPollEvents_event host s (.SDL_KEYUP scancode repeat_) = some (s, [])) ∧
      (repeat_ = 0 →
        FosterPollEvents_event host s (.SDL_KEYDOWN scancode repeat_)
          = some (s, [.onKey (FosterGetKeyFromSDL scancode) true]) ∧
        FosterPollEvents_event host s (.SDL_KEYUP scancode repeat_)
          = some (s, [.onKey (FosterGetKeyFromSDL scancode) false])) := by
  constructor
  · intro hr
    simp [FosterPollEvents_event, hr]
  · intro hr
    simp [FosterPollEvents_event, invoke, hr, hcb]

/-- Witness of C9: the `A` key, first press and auto-repeat. -/
theorem key_event_callback_witness :
    runningState.desc.onKey = true ∧
      FosterPollEvents_event exampleHost runningState (.SDL_KEYDOWN .SDL_SCANCODE_A 0)
        = some (runningState, [.onKey .FOSTER_KEY_A true]) ∧
      FosterPollEvents_event exampleHost runningState (.SDL_KEYDOWN .SDL_SCANCODE_A 1)
        = some (runningState, []) :=
  ⟨rfl,
    ((key_event_callback exampleHost runningState .SDL_SCANCODE_A 0 rfl).2 rfl).1,
    ((key_event_callback exampleHost runningState .SDL_SCANCODE_A 1 rfl).1 (by decide)).1⟩

/-- C10: the enum translators are total with a sentinel.  A scancode that is
none of the case labels of `FosterGetKeyFromSDL` yields `FOSTER_KEY_UNKNOWN`; an
axis identifier outside the six listed controller axes yields
`FOSTER_AXIS_NONE`; and every listed case other than the host's own
`SDL_SCANCODE_UNKNOWN` yields a value different from the sentinel. -/
theorem translators_total_with_sentinel :
    (∀ k : SDL_Scancode, k.hasCaseLabel = false →
        FosterGetKeyFromSDL k = .FOSTER_KEY_UNKNOWN) ∧
      (∀ a : Int, a ∉ FosterGetAxisFromSDL_cases →
        FosterGetAxisFromSDL a = .FOSTER_AXIS_NONE) ∧
      (∀ k : SDL_Scancode, k.hasCaseLabel = true → k ≠ .SDL_SCANCODE_UNKNOWN →
        FosterGetKeyFromSDL k ≠ .FOSTER_KEY_UNKNOWN) ∧
      (∀ a ∈ FosterGetAxisFromSDL_cases, FosterGetAxisFromSDL a ≠ .FOSTER_AXIS_NONE) := by
  refine ⟨?_, ?_, ?_, ?_⟩
  · intro k hk
    cases k <;> first | rfl | exact absurd hk (by decide)
  · intro a ha
    simp only [FosterGetAxisFromSDL_cases, List.mem_cons, List.mem_singleton,
      List.not_mem_nil, or_false, not_or, SDL_CONTROLLER_AXIS_LEFTX,
      SDL_CONTROLLER_AXIS_LEFTY, SDL_CONTROLLER_AXIS_RIGHTX, SDL_CONTROLLER_AXIS_RIGHTY,
      SDL_CONTROLLER_AXIS_TRIGGERLEFT, SDL_CONTROLLER_AXIS_TRIGGERRIGHT] at ha
    obtain ⟨h0, h1, h2, h3, h4, h5⟩ := ha
    simp [FosterGetAxisFromSDL, SDL_CONTROLLER_AXIS_LEFTX,
      SDL_CONTROLLER_AXIS_LEFTY, SDL_CONTROLLER_AXIS_RIGHTX, SDL_CONTROLLER_AXIS_RIGHTY,
      SDL_CONTROLLER_AXIS_TRIGGERLEFT, SDL_CONTROLLER_AXIS_TRIGGERRIGHT, h0, h1, h2, h3, h4, h5]
  · intro k hk hne
    cases k <;>
      first
      | exact absurd rfl hne
      | decide
      | exact absurd hk (by simp [SDL_Scancode.hasCaseLabel])
  · intro a ha
    simp only [FosterGetAxisFromSDL_cases, List.mem_cons, List.mem_singleton,
      List.not_mem_nil, or_false] at ha
    rcases ha with h | h | h | h | h | h <;> subst h <;> decide

/-- The value handed to the axis callback by the joystick and gamepad axis
branches is `axis_value` of the reading carried by the event. -/
theorem axis_event_value {H : FosterHeader} (host : Host) (s s1 : FosterState H)
    (which : Int) (axis : Nat) (value : Int) (t : List Effect)
    (h : FosterPollEvents_event host s (.SDL_JOYAXISMOTION which axis value) = some (s1, t) ∨
      FosterPollEvents_event host s (.SDL_CONTROLLERAXISMOTION which axis value)
        = some (s1, t)) :
    ∀ e ∈ t, ∃ index a, e = .onControllerAxis index a (axis_value value) := by
  rcases h with h | h
  · unfold FosterPollEvents_event at h
    simp only [invoke] at h
    split_ifs at h <;> simp at h <;> obtain ⟨-, rfl⟩ := h <;> simp
  · unfold FosterPollEvents_event at h
    simp only [invoke] at h
    split_ifs at h <;> simp at h <;> obtain ⟨-, rfl⟩ := h <;> simp

/-- With logging enabled and an error-log callback registered, every guarded
entry point other than `FosterPollEvents`, called while not running, produces
exactly one error log entry, printed with the name of the operation called. -/
theorem guarded_call_logs_own_name {H : FosterHeader} (host : Host) (s : FosterState H)
    (c : GuardedCall) (hc : ∀ pending, c ≠ .FosterPollEvents pending)
    (h : s.running = false) (hl : s.desc.logging ≠ .FOSTER_LOGGING_NONE)
    (hcb : s.desc.onLogError = true) :
    c.run host s = some ⟨c.safeDefault, s, c.expectedLog⟩ := by
  cases c <;>
    first
    | exact absurd rfl (hc _)
    | simp [GuardedCall.run, GuardedCall.safeDefault, GuardedCall.expectedLog,
        GuardedCall.name, Outcome.mapRet,
        Foster.FosterBeginFrame, Foster.FosterEndFrame,
        Foster.FosterSetTitle, Foster.FosterSetSize, Foster.FosterGetSize,
        Foster.FosterGetSizeInPixels, Foster.FosterSetFlags, Foster.FosterGetUserPath,
        Foster.FosterSetClipboard, Foster.FosterGetClipboard, Foster.FosterGetRenderer,
        Foster.FosterTextureCreate, Foster.FosterTextureSetData, Foster.FosterTextureGetData,
        Foster.FosterTextureDestroy, Foster.FosterTargetCreate,
        Foster.FosterTargetGetAttachment, Foster.FosterTargetDestroy,
        Foster.FosterShaderCreate, Foster.FosterShaderGetUniforms,
        Foster.FosterShaderSetUniform, Foster.FosterShaderSetTexture,
        Foster.FosterShaderSetSampler, Foster.FosterShaderDestroy, Foster.FosterMeshCreate,
        Foster.FosterMeshSetVertexFormat, Foster.FosterMeshSetVertexData,
        Foster.FosterMeshSetIndexFormat, Foster.FosterMeshSetIndexData,
        Foster.FosterMeshDestroy, Foster.FosterDraw, Foster.FosterClear,
        FOSTER_ASSERT_RUNNING, FosterLogError, h, hl, hcb]

/-- C11, the code at the failing input: `FosterPollEvents` called while not
running, with logging enabled and an error-log callback registered, produces
one error log entry, but the entry is printed with the name `FosterBeginFrame`
and so differs from the entry that names the operation called,
`FosterPollEvents`. -/
theorem FosterPollEvents_log_names_FosterBeginFrame :
    stoppedState.running = false ∧
      stoppedState.desc.logging ≠ .FOSTER_LOGGING_NONE ∧
      stoppedState.desc.onLogError = true ∧
      (GuardedCall.FosterPollEvents []).run exampleHost stoppedState
        = some ⟨.void, stoppedState,
            [.onLogError "Failed '%s', Foster is not running" [.str "FosterBeginFrame"]]⟩ ∧
      (GuardedCall.FosterPollEvents []).name = "FosterPollEvents" ∧
      (GuardedCall.FosterPollEvents []).run exampleHost stoppedState
        ≠ some ⟨.void, stoppedState, (GuardedCall.FosterPollEvents []).expectedLog⟩ := by
  have hrun : (GuardedCall.FosterPollEvents []).run exampleHost stoppedState
      = some ⟨.void, stoppedState,
          [.onLogError "Failed '%s', Foster is not running" [.str "FosterBeginFrame"]]⟩ := by
    simp [GuardedCall.run, Foster.FosterPollEvents, Outcome.mapRet, FOSTER_ASSERT_RUNNING,
      FosterLogError, stoppedState, exampleDesc]
  refine ⟨rfl, by decide, rfl, hrun, rfl, ?_⟩
  rw [hrun]
  simp [GuardedCall.expectedLog, GuardedCall.name]

/-- C12, the code at the failing input: on the example host, whose raw
joysticks report 8 buttons and 2 axes, a joystick-added event passes the counts
`(8, 0, 2)` to the connect callback and a gamepad-added event passes
`(15, 6, 1)`.  The fourth argument carries the joystick's hat count `0` but the
gamepad's axis count `6`; the fifth carries the joystick's queried axis count
but the gamepad's hat count `1`. -/
theorem connect_callback_count_positions :
    exampleHost.SDL_JoystickNumButtons (exampleHost.SDL_JoystickOpen 1) = 8 ∧
      exampleHost.SDL_JoystickNumAxes (exampleHost.SDL_JoystickOpen 1) = 2 ∧
      FosterPollEvents_event exampleHost runningState (.SDL_JOYDEVICEADDED 1)
        = some ({ runningState with
                    joysticks := writeSlot runningState.joysticks 1 (some 101) },
            [.SDL_JoystickOpen 1, .onControllerConnect 1 (some "stick") 8 0 2 1 2 3]) ∧
      FosterPollEvents_event exampleHost runningState (.SDL_CONTROLLERDEVICEADDED 1)
        = some ({ runningState with
                    gamepads := writeSlot runningState.gamepads 1 (some 201) },
            [.SDL_GameControllerOpen 1, .onControllerConnect 1 (some "pad") 15 6 1 1 2 3]) := by
  refine ⟨rfl, rfl, ?_, ?_⟩
  · simp [FosterPollEvents_event, invoke, exampleHost, runningState, stoppedState,
      exampleDesc, exampleHeader]
  · simp [FosterPollEvents_event, invoke, exampleHost, runningState, stoppedState,
      exampleDesc, exampleHeader]

/-- The count arguments of the connect callback, for every host and state: a
joystick-added event passes (queried buttons, `0`, queried axes), a
gamepad-added event passes (`15`, `6`, `1`). -/
theorem connect_callback_counts {H : FosterHeader} (host : Host) (s s1 : FosterState H)
    (which : Int) (t : List Effect) :
    (FosterPollEvents_event host s (.SDL_JOYDEVICEADDED which) = some (s1, t) →
        ∀ index name a3 a4 a5 vendor product version,
          Effect.onControllerConnect index name a3 a4 a5 vendor product version ∈ t →
          a3 = host.SDL_JoystickNumButtons (host.SDL_JoystickOpen which) ∧ a4 = 0 ∧
            a5 = host.SDL_JoystickNumAxes (host.SDL_JoystickOpen which)) ∧
      (FosterPollEvents_event host s (.SDL_CONTROLLERDEVICEADDED which) = some (s1, t) →
        ∀ index name a3 a4 a5 vendor product version,
          Effect.onControllerConnect index name a3 a4 a5 vendor product version ∈ t →
          a3 = 15 ∧ a4 = 6 ∧ a5 = 1) := by
  constructor
  · intro h
    unfold FosterPollEvents_event at h
    simp only [invoke] at h
    split_ifs at h <;> simp at h <;> obtain ⟨-, rfl⟩ := h <;> simp
    rintro - - - - - - - - - - rfl rfl rfl - - -
    exact ⟨rfl, rfl, rfl⟩
  · intro h
    unfold FosterPollEvents_event at h
    simp only [invoke] at h
    split_ifs at h <;> simp at h <;> obtain ⟨-, rfl⟩ := h <;> simp
    rintro - - - - - - - - - - rfl rfl rfl - - -
    exact ⟨rfl, rfl, rfl⟩

/-- The state in which the example startup leaves the example runtime. -/
theorem FosterStartup_example_state :
    (FosterStartup exampleHost stoppedState exampleDesc).state
      = { runningState with
            windowCreateFlags := [.SDL_WINDOW_ALLOW_HIGHDPI, .SDL_WINDOW_HIDDEN] } := by
  simp [FosterStartup, FosterSetFlags, stoppedState, runningState, exampleHost, exampleDesc,
    exampleDevice]

/-- Lookup in the session state: instance id `100` is found at slot `0` and
instance id `101` at slot `1`. -/
theorem sessionState_lookup :
    FosterFindJoystickIndexSDL exampleHost sessionState.joysticks 100 = 0 ∧
      FosterFindJoystickIndexSDL exampleHost sessionState.joysticks 101 = 1 := by
  constructor <;> rfl

/-- The two example frames, run after the example startup, end in the session
state. -/
theorem exampleFrames_run :
    FosterPollEvents_frames (FosterStartup exampleHost stoppedState exampleDesc).state
      exampleFrames = some sessionState := by
  rw [FosterStartup_example_state]
  have h1 : FosterPollEvents exampleHost
      ({ runningState with
          windowCreateFlags := [.SDL_WINDOW_ALLOW_HIGHDPI, .SDL_WINDOW_HIDDEN] } :
        FosterState exampleHeader)
      [.SDL_JOYDEVICEADDED 0, .SDL_JOYDEVICEADDED 1]
      = some ⟨(), sessionState,
          [.SDL_JoystickOpen 0, .onControllerConnect 0 (some "stick") 8 0 2 1 2 3,
           .SDL_JoystickOpen 1, .onControllerConnect 1 (some "stick") 8 0 2 1 2 3]⟩ := by
    simp [FosterPollEvents, FosterPollEvents_loop, FosterPollEvents_event, invoke,
      exampleHost, runningState, stoppedState, exampleDesc, exampleHeader, sessionState]
  have h2 : FosterPollEvents exampleHost sessionState [.SDL_JOYDEVICEREMOVED 100]
      = some ⟨(), sessionState,
          [.onControllerDisconnect 0, .SDL_JoystickClose (some 100)]⟩ := by
    have hl := sessionState_lookup.1
    have hg : exampleHost.SDL_IsGameController 0 = false := rfl
    have hd : sessionState.desc.onControllerDisconnect = true := rfl
    have hs : readSlot sessionState.joysticks 0 = some 100 := rfl
    rw [FosterPollEvents_single _ _ _ rfl]
    simp [FosterPollEvents_event, invoke, hl, hg, hd, hs]
  simp [exampleFrames, FosterPollEvents_frames, h1, h2]

/-- Counterexample to C13 as stated.  After a successful startup two raw
joysticks are plugged in (slots `0` and `1`) and the first is unplugged; no
removed event for the joystick in slot `1` (handle and instance id `101`) is
ever processed.  A joystick-added event with device index `1` then stores the
new device `301` into slot `1`, over the joystick that is still connected. -/
theorem slot_reuse_counterexample :
    FosterPollEvents_frames (FosterStartup exampleHost stoppedState exampleDesc).state
        exampleFrames = some sessionState ∧
      readSlot sessionState.joysticks 1 = some 101 ∧
      (∀ frame ∈ exampleFrames,
        SDL_Event.SDL_JOYDEVICEREMOVED (frame.1.SDL_JoystickInstanceID (some 101))
          ∉ frame.2) ∧
      FosterPollEvents_event laterHost sessionState (.SDL_JOYDEVICEADDED 1)
        = some ({ sessionState with
                    joysticks := writeSlot sessionState.joysticks 1 (some 301) },
            [.SDL_JoystickOpen 1, .onControllerConnect 1 (some "stick") 8 0 2 1 2 3]) ∧
      readSlot (writeSlot sessionState.joysticks 1 (some 301)) 1 = some 301 ∧
      ¬ SlotReuseOnlyAfterDisconnect exampleHost stoppedState exampleDesc exampleFrames
          laterHost 1 := by
  have hrun := exampleFrames_run
  have hocc : readSlot sessionState.joysticks 1 = some 101 := rfl
  have hnone : ∀ frame ∈ exampleFrames,
      SDL_Event.SDL_JOYDEVICEREMOVED (frame.1.SDL_JoystickInstanceID (some 101))
        ∉ frame.2 := by
    intro frame hf
    simp only [exampleFrames, List.mem_cons, List.mem_singleton, List.not_mem_nil,
      or_false] at hf
    rcases hf with rfl | rfl <;> simp [exampleHost]
  have hev : FosterPollEvents_event laterHost sessionState (.SDL_JOYDEVICEADDED 1)
      = some ({ sessionState with
                  joysticks := writeSlot sessionState.joysticks 1 (some 301) },
          [.SDL_JoystickOpen 1, .onControllerConnect 1 (some "stick") 8 0 2 1 2 3]) := by
    simp [FosterPollEvents_event, invoke, laterHost, exampleHost, sessionState, runningState,
      stoppedState, exampleDesc, exampleHeader]
  have hnew : readSlot (writeSlot sessionState.joysticks 1 (some 301)) 1 = some 301 := rfl
  refine ⟨hrun, hocc, hnone, hev, hnew, ?_⟩
  intro hc
  have hstart : (FosterStartup exampleHost stoppedState exampleDesc).state.running = true := by
    rw [FosterStartup_example_state]; rfl
  obtain ⟨frame, hf, hmem⟩ := hc rfl hstart _ hrun _ _ hev 101 hocc (by
    show readSlot (writeSlot sessionState.joysticks 1 (some 301)) 1 ≠ some 101
    rw [hnew]; simp)
  exact hnone frame hf hmem

/-- The joystick-added branch when it is taken: the state and effects it
produces. -/
theorem joystick_added_event_eq {H : FosterHeader} (host : Host) (s : FosterState H)
    (which : Int) (hg : host.SDL_IsGameController which = false)
    (h0 : 0 ≤ which) (h1 : which < (H.FOSTER_MAX_CONTROLLERS : Int))
    (hcb : s.desc.onControllerConnect = true) :
    FosterPollEvents_event host s (.SDL_JOYDEVICEADDED which)
      = some ({ s with joysticks := writeSlot s.joysticks which (host.SDL_JoystickOpen which) },
          [.SDL_JoystickOpen which,
           .onControllerConnect which
             (host.SDL_JoystickName (host.SDL_JoystickOpen which))
             (host.SDL_JoystickNumButtons (host.SDL_JoystickOpen which)) 0
             (host.SDL_JoystickNumAxes (host.SDL_JoystickOpen which))
             (host.SDL_JoystickGetVendor (host.SDL_JoystickOpen which))
             (host.SDL_JoystickGetProduct (host.SDL_JoystickOpen which))
             (host.SDL_JoystickGetProductVersion (host.SDL_JoystickOpen which))]) := by
  simp [FosterPollEvents_event, invoke, hg, h0, h1, hcb]

/-- The gamepad-added branch when it is taken: the state and effects it
produces. -/
theorem gamepad_added_event_eq {H : FosterHeader} (host : Host) (s : FosterState H)
    (which : Int) (h0 : 0 ≤ which) (h1 : which < (H.FOSTER_MAX_CONTROLLERS : Int))
    (hcb : s.desc.onControllerConnect = true) :
    FosterPollEvents_event host s (.SDL_CONTROLLERDEVICEADDED which)
      = some ({ s with
                  gamepads := writeSlot s.gamepads which (host.SDL_GameControllerOpen which) },
          [.SDL_GameControllerOpen which,
           .onControllerConnect which
             (host.SDL_GameControllerName (host.SDL_GameControllerOpen which)) 15 6 1
             (host.SDL_GameControllerGetVendor (host.SDL_GameControllerOpen which))
             (host.SDL_GameControllerGetProduct (host.SDL_GameControllerOpen which))
             (host.SDL_GameControllerGetProductVersion (host.SDL_GameControllerOpen which))]) := by
  simp [FosterPollEvents_event, invoke, h0, h1, hcb]

/-- C13, amended: in every state, reachable or not, a device-added event whose
device index lies in `[0, FOSTER_MAX_CONTROLLERS)` (and, for a joystick-added
event, whose device is not a gamepad) stores the newly opened device into the
slot whose number is the device index, whatever that slot holds, and changes no
other slot of either table. -/
theorem device_added_writes_indexed_slot {H : FosterHeader} (host : Host)
    (s : FosterState H) (which : Int)
    (h0 : 0 ≤ which) (h1 : which < (H.FOSTER_MAX_CONTROLLERS : Int))
    (hcb : s.desc.onControllerConnect = true) :
    (host.SDL_IsGameController which = false →
        ∃ s1 t, FosterPollEvents_event host s (.SDL_JOYDEVICEADDED which) = some (s1, t) ∧
          readSlot s1.joysticks which = host.SDL_JoystickOpen which ∧
          (∀ j : Fin H.FOSTER_MAX_CONTROLLERS, ((j : Nat) : Int) ≠ which →
            s1.joysticks j = s.joysticks j) ∧
          s1.gamepads = s.gamepads) ∧
      (∃ s1 t, FosterPollEvents_event host s (.SDL_CONTROLLERDEVICEADDED which)
            = some (s1, t) ∧
          readSlot s1.gamepads which = host.SDL_GameControllerOpen which ∧
          (∀ j : Fin H.FOSTER_MAX_CONTROLLERS, ((j : Nat) : Int) ≠ which →
            s1.gamepads j = s.gamepads j) ∧
          s1.joysticks = s.joysticks) := by
  constructor
  · intro hg
    refine ⟨_, _, joystick_added_event_eq host s which hg h0 h1 hcb,
      readSlot_writeSlot _ _ _ h0 h1, ?_, rfl⟩
    intro j hj
    simp [writeSlot, hj]
  · refine ⟨_, _, gamepad_added_event_eq host s which h0 h1 hcb,
      readSlot_writeSlot _ _ _ h0 h1, ?_, rfl⟩
    intro j hj
    simp [writeSlot, hj]

/-- Witness of C13 amended: device index `1` in the session state, whose slot
`1` holds a connected joystick. -/
theorem device_added_writes_indexed_slot_witness :
    (0 : Int) ≤ 1 ∧ (1 : Int) < (exampleHeader.FOSTER_MAX_CONTROLLERS : Int) ∧
      sessionState.desc.onControllerConnect = true ∧
      ((laterHost.SDL_IsGameController 1 = false →
          ∃ s1 t, FosterPollEvents_event laterHost sessionState (.SDL_JOYDEVICEADDED 1)
              = some (s1, t) ∧
            readSlot s1.joysticks 1 = laterHost.SDL_JoystickOpen 1 ∧
            (∀ j : Fin exampleHeader.FOSTER_MAX_CONTROLLERS, ((j : Nat) : Int) ≠ 1 →
              s1.joysticks j = sessionState.joysticks j) ∧
            s1.gamepads = sessionState.gamepads) ∧
        (∃ s1 t, FosterPollEvents_event laterHost sessionState (.SDL_CONTROLLERDEVICEADDED 1)
              = some (s1, t) ∧
            readSlot s1.gamepads 1 = laterHost.SDL_GameControllerOpen 1 ∧
            (∀ j : Fin exampleHeader.FOSTER_MAX_CONTROLLERS, ((j : Nat) : Int) ≠ 1 →
              s1.gamepads j = sessionState.gamepads j) ∧
            s1.joysticks = sessionState.joysticks)) :=
  ⟨by decide, by decide, rfl,
    device_added_writes_indexed_slot laterHost sessionState 1 (by decide) (by decide) rfl⟩

/-- A joystick-removed or gamepad-removed event never changes the runtime
state: the slot of the closed device keeps its handle. -/
theorem removed_event_keeps_state {H : FosterHeader} (host : Host) (s s1 : FosterState H)
    (which : Int) (t : List Effect)
    (h : FosterPollEvents_event host s (.SDL_JOYDEVICEREMOVED which) = some (s1, t) ∨
      FosterPollEvents_event host s (.SDL_CONTROLLERDEVICEREMOVED which) = some (s1, t)) :
    s1 = s := by
  rcases h with h | h
  · unfold FosterPollEvents_event at h
    simp only [invoke] at h
    split_ifs at h <;> simp at h <;> exact h.1.symm
  · unfold FosterPollEvents_event at h
    simp only [invoke] at h
    split_ifs at h <;> simp at h <;> exact h.1.symm

/-- C14, the code at the failing input.  In the session state the joystick with
instance id `100` is registered in slot `0`.  Processing its removed event
invokes the disconnect callback and closes the handle but leaves the state as
it was: slot `0` still holds handle `100` and the lookup by instance id `100`
still finds slot `0`.  So a repeated removed event invokes the disconnect
callback and the close a second time, and a later button or axis event with
that instance id invokes its callback.  The gamepad table behaves the same. -/
theorem removed_slot_not_freed :
    FosterFindJoystickIndexSDL exampleHost sessionState.joysticks 100 = 0 ∧
      FosterPollEvents_event exampleHost sessionState (.SDL_JOYDEVICEREMOVED 100)
        = some (sessionState, [.onControllerDisconnect 0, .SDL_JoystickClose (some 100)]) ∧
      readSlot sessionState.joysticks 0 = some 100 ∧
      FosterPollEvents exampleHost sessionState
          [.SDL_JOYDEVICEREMOVED 100, .SDL_JOYDEVICEREMOVED 100]
        = some ⟨(), sessionState,
            [.onControllerDisconnect 0, .SDL_JoystickClose (some 100),
             .onControllerDisconnect 0, .SDL_JoystickClose (some 100)]⟩ ∧
      FosterPollEvents exampleHost sessionState
          [.SDL_JOYDEVICEREMOVED 100, .SDL_JOYBUTTONDOWN 100 3,
           .SDL_JOYAXISMOTION 100 0 32767]
        = some ⟨(), sessionState,
            [.onControllerDisconnect 0, .SDL_JoystickClose (some 100),
             .onControllerButton 0 (.raw 3) true, .onControllerAxis 0 (.raw 0) 1]⟩ ∧
      FosterPollEvents exampleHost sessionState
          [.SDL_CONTROLLERDEVICEADDED 0, .SDL_CONTROLLERDEVICEREMOVED 200,
           .SDL_CONTROLLERDEVICEREMOVED 200]
        = some ⟨(), { sessionState with
                        gamepads := writeSlot sessionState.gamepads 0 (some 200) },
            [.SDL_GameControllerOpen 0, .onControllerConnect 0 (some "pad") 15 6 1 1 2 3,
             .onControllerDisconnect 0, .SDL_GameControllerClose (some 200),
             .onControllerDisconnect 0, .SDL_GameControllerClose (some 200)]⟩ := by
  have hl := sessionState_lookup.1
  have hr : sessionState.running = true := rfl
  have hg : exampleHost.SDL_IsGameController 0 = false := rfl
  have hd : sessionState.desc.onControllerDisconnect = true := rfl
  have hb : sessionState.desc.onControllerButton = true := rfl
  have ha : sessionState.desc.onControllerAxis = true := rfl
  have hc : sessionState.desc.onControllerConnect = true := rfl
  have hs : readSlot sessionState.joysticks 0 = some 100 := rfl
  have hrem : FosterPollEvents_event exampleHost sessionState (.SDL_JOYDEVICEREMOVED 100)
      = some (sessionState, [.onControllerDisconnect 0, .SDL_JoystickClose (some 100)]) := by
    simp [FosterPollEvents_event, invoke, hl, hg, hd, hs]
  have hbtn : FosterPollEvents_event exampleHost sessionState (.SDL_JOYBUTTONDOWN 100 3)
      = some (sessionState, [.onControllerButton 0 (.raw 3) true]) := by
    simp [FosterPollEvents_event, invoke, hl, hg, hb]
  have hax : FosterPollEvents_event exampleHost sessionState (.SDL_JOYAXISMOTION 100 0 32767)
      = some (sessionState, [.onControllerAxis 0 (.raw 0) 1]) := by
    simp [FosterPollEvents_event, invoke, hl, hg, ha, axis_value]
  have hadd := gamepad_added_event_eq exampleHost sessionState 0 (by decide) (by decide) hc
  have hl2 : FosterFindGamepadIndexSDL exampleHost
      (writeSlot sessionState.gamepads 0 (exampleHost.SDL_GameControllerOpen 0)) 200 = 0 := rfl
  have hs2 : readSlot (writeSlot sessionState.gamepads 0
      (exampleHost.SDL_GameControllerOpen 0)) 0 = some 200 := rfl
  have hrem2 : FosterPollEvents_event exampleHost
      ({ sessionState with
          gamepads := writeSlot sessionState.gamepads 0 (exampleHost.SDL_GameControllerOpen 0) })
      (.SDL_CONTROLLERDEVICEREMOVED 200)
      = some ({ sessionState with
          gamepads := writeSlot sessionState.gamepads 0 (exampleHost.SDL_GameControllerOpen 0) },
        [.onControllerDisconnect 0, .SDL_GameControllerClose (some 200)]) := by
    simp [FosterPollEvents_event, invoke, hl2, hd, hs2]
  refine ⟨hl, hrem, hs, ?_, ?_, ?_⟩
  · simp [FosterPollEvents, FosterPollEvents_loop, hr, hrem]
  · simp [FosterPollEvents, FosterPollEvents_loop, hr, hrem, hbtn, hax]
  · simp only [FosterPollEvents, hr, Bool.not_true, Bool.false_eq_true, if_false,
      FosterPollEvents_loop, hadd, hrem2]
    rfl

/-- A counting loop that returns the first index satisfying a test, or `-1`
when its `fuel` covers the rest of the table and no index from `i` on does. -/
theorem first_match_loop {n : Nat} (p : Fin n → Prop) [DecidablePred p]
    (loop : Nat → Nat → Int) (hzero : ∀ i, loop i 0 = -1)
    (hstep : ∀ i fuel, loop i (fuel + 1)
      = if h : i < n then (if p ⟨i, h⟩ then (i : Int) else loop (i + 1) fuel) else -1) :
    ∀ fuel i, i + fuel = n →
      (loop i fuel = -1 ∧ ∀ j : Fin n, i ≤ (j : Nat) → ¬ p j) ∨
        ∃ k : Fin n, loop i fuel = ((k : Nat) : Int) ∧ i ≤ (k : Nat) ∧ p k ∧
          ∀ j : Fin n, i ≤ (j : Nat) → j < k → ¬ p j := by
  intro fuel
  induction fuel with
  | zero =>
    intro i hi
    left
    refine ⟨hzero i, ?_⟩
    intro j hj
    have := j.isLt
    omega
  | succ fuel ih =>
    intro i hi
    have hlt : i < n := by omega
    rw [hstep, dif_pos hlt]
    by_cases hp : p ⟨i, hlt⟩
    · right
      refine ⟨⟨i, hlt⟩, by rw [if_pos hp], le_refl _, hp, ?_⟩
      intro j hj hjk
      exact absurd hjk (by simp [Fin.lt_def]; exact hj)
    · rw [if_neg hp]
      rcases ih (i + 1) (by omega) with ⟨hr, hall⟩ | ⟨k, hr, hk, hpk, hmin⟩
      · left
        refine ⟨hr, ?_⟩
        intro j hj
        by_cases hji : (j : Nat) = i
        · have : j = ⟨i, hlt⟩ := Fin.ext hji
          rw [this]; exact hp
        · exact hall j (by omega)
      · right
        refine ⟨k, hr, by omega, hpk, ?_⟩
        intro j hj hjk
        by_cases hji : (j : Nat) = i
        · have : j = ⟨i, hlt⟩ := Fin.ext hji
          rw [this]; exact hp
        · exact hmin j (by omega) hjk

/-- From the loop statement at `i = 0` to the first-match statement and the
bounds of the result. -/
theorem first_match_of_loop {n : Nat} (p : Fin n → Prop) (r : Int)
    (h : (r = -1 ∧ ∀ j : Fin n, 0 ≤ (j : Nat) → ¬ p j) ∨
      ∃ k : Fin n, r = ((k : Nat) : Int) ∧ 0 ≤ (k : Nat) ∧ p k ∧
        ∀ j : Fin n, 0 ≤ (j : Nat) → j < k → ¬ p j) :
    IsFirstMatch p r ∧ (r = -1 ↔ ∀ i : Fin n, ¬ p i) ∧ -1 ≤ r ∧ r < (n : Int) := by
  rcases h with ⟨hr, hall⟩ | ⟨k, hr, -, hpk, hmin⟩
  · have hall' : ∀ i : Fin n, ¬ p i := fun i => hall i (Nat.zero_le _)
    refine ⟨Or.inl ⟨hr, hall'⟩, ⟨fun _ => hall', fun _ => hr⟩, by omega, by omega⟩
  · have hk := k.isLt
    refine ⟨Or.inr ⟨k, hr, hpk, fun j hj => hmin j (Nat.zero_le _) hj⟩, ⟨?_, ?_⟩,
      by omega, by omega⟩
    · intro h1
      omega
    · intro hall
      exact absurd hpk (hall k)

/-- C15: for every slot table and every target instance id,
`FosterFindJoystickIndexSDL` and `FosterFindGamepadIndexSDL` return the smallest
index whose slot is occupied by a device with that instance id, return `-1`
exactly when no occupied slot has it, never match an empty slot, and return a
value in `[-1, FOSTER_MAX_CONTROLLERS)`. -/
theorem find_index_first_match {n : Nat} (host : Host) (table : Fin n → Ptr)
    (instanceID : Int) :
    (IsFirstMatch (joystickSlotMatches host table instanceID)
        (FosterFindJoystickIndexSDL host table instanceID) ∧
      (FosterFindJoystickIndexSDL host table instanceID = -1 ↔
        ∀ i : Fin n, ¬ (table i ≠ none ∧
          host.SDL_JoystickInstanceID (table i) = instanceID)) ∧
      -1 ≤ FosterFindJoystickIndexSDL host table instanceID ∧
      FosterFindJoystickIndexSDL host table instanceID < (n : Int)) ∧
    (IsFirstMatch (gamepadSlotMatches host table instanceID)
        (FosterFindGamepadIndexSDL host table instanceID) ∧
      (FosterFindGamepadIndexSDL host table instanceID = -1 ↔
        ∀ i : Fin n, ¬ (table i ≠ none ∧
          host.SDL_JoystickInstanceID (host.SDL_GameControllerGetJoystick (table i))
            = instanceID)) ∧
      -1 ≤ FosterFindGamepadIndexSDL host table instanceID ∧
      FosterFindGamepadIndexSDL host table instanceID < (n : Int)) := by
  constructor
  · apply first_match_of_loop
    have := first_match_loop (joystickSlotMatches host table instanceID)
      (FosterFindJoystickIndexSDL_loop host table instanceID)
      (fun i => rfl) (fun i fuel => rfl) n 0 (by omega)
    exact this
  · apply first_match_of_loop
    have := first_match_loop (gamepadSlotMatches host table instanceID)
      (FosterFindGamepadIndexSDL_loop host table instanceID)
      (fun i => rfl) (fun i fuel => by
        rw [FosterFindGamepadIndexSDL_loop]
        by_cases hlt : i < n
        · simp only [dif_pos hlt]
          by_cases hne : table ⟨i, hlt⟩ ≠ none
          · simp only [if_pos hne]
            by_cases heq : host.SDL_JoystickInstanceID
                (host.SDL_GameControllerGetJoystick (table ⟨i, hlt⟩)) = instanceID
            · rw [if_pos heq, if_pos ⟨hne, heq⟩]
            · rw [if_neg heq, if_neg (fun h => heq h.2)]
          · rw [if_neg hne, if_neg (fun h => hne h.1)]
        · simp only [dif_neg hlt]) n 0 (by omega)
    exact this

end Foster
